import Mathlib

/-!
# Mitsubishi infrared climate codec

A shallow embedding of `esphome/components/mitsubishi/mitsubishi.cpp` and
`mitsubishi.h`: the construction of the 18-entry `remote_state` array and its
modulation into marks and spaces by `MitsubishiClimate::transmit_state`, and
the demodulation and field extraction of `MitsubishiClimate::on_receive`.

Machine integers are natural numbers with explicit reductions: entries of
`remote_state` are `uint32_t` (reduced modulo `2 ^ 32` at every store), the
loop variable of the modulation loop and the receive buffer are `uint8_t`
(reduced modulo `256`).  The target temperature is a `float` in the source and
an exact rational here.
-/

namespace Mitsubishi

/-! ## Constants of `mitsubishi.cpp` and `mitsubishi.h` -/

def MITSUBISHI_TEMP_MIN : Nat := 16
def MITSUBISHI_TEMP_MAX : Nat := 31

def MITSUBISHI_OFF : Nat := 0x00

def MITSUBISHI_MODE_HEAT : Nat := 0x08
def MITSUBISHI_MODE_DRY : Nat := 0x10
def MITSUBISHI_MODE_COOL : Nat := 0x18
def MITSUBISHI_MODE_AUTO : Nat := 0x20

def MITSUBISHI_MODE_A_HEAT : Nat := 0x00
def MITSUBISHI_MODE_A_DRY : Nat := 0x02
def MITSUBISHI_MODE_A_COOL : Nat := 0x06
def MITSUBISHI_MODE_A_AUTO : Nat := 0x06

def MITSUBISHI_WIDE_VANE_SWING : Nat := 0xC0

def MITSUBISHI_FAN_AUTO : Nat := 0x00

def MITSUBISHI_VERTICAL_VANE_SWING : Nat := 0x38

def MITSUBISHI_OTHERWISE : Nat := 0x40

def MITSUBISHI_BIT_MARK : Nat := 430
def MITSUBISHI_ONE_SPACE : Nat := 1250
def MITSUBISHI_ZERO_SPACE : Nat := 390
def MITSUBISHI_HEADER_MARK : Nat := 3500
def MITSUBISHI_HEADER_SPACE : Nat := 1700
def MITSUBISHI_MIN_GAP : Nat := 17500

def MITSUBISHI_BYTE00 : Nat := 0x23
def MITSUBISHI_BYTE01 : Nat := 0xCB
def MITSUBISHI_BYTE02 : Nat := 0x26
def MITSUBISHI_BYTE03 : Nat := 0x01
def MITSUBISHI_BYTE04 : Nat := 0x00
def MITSUBISHI_BYTE13 : Nat := 0x00
def MITSUBISHI_BYTE16 : Nat := 0x00

/-- Wrap-around of a `uint32_t`. -/
def u32 (n : Nat) : Nat := n % 2 ^ 32

/-- Wrap-around of a `uint8_t`. -/
def u8 (n : Nat) : Nat := n % 256

/-! ## The climate abstraction (declared outside the component) -/

/-- Modelled from the spec: the enumeration `climate::ClimateMode`, declared
outside the component; the values are the five of the spec's data model. -/
inductive ClimateMode where
  | CLIMATE_MODE_OFF
  | CLIMATE_MODE_HEAT
  | CLIMATE_MODE_DRY
  | CLIMATE_MODE_COOL
  | CLIMATE_MODE_HEAT_COOL
  deriving DecidableEq, Repr

/-- Modelled from the spec: the enumeration `climate::ClimateFanMode`, declared
outside the component; the values are the four of the spec's data model. -/
inductive ClimateFanMode where
  | CLIMATE_FAN_AUTO
  | CLIMATE_FAN_LOW
  | CLIMATE_FAN_MEDIUM
  | CLIMATE_FAN_HIGH
  deriving DecidableEq, Repr

/-- Modelled from the spec: the enumeration `climate::ClimateSwingMode`,
declared outside the component; the values are the four of the spec's data
model. -/
inductive ClimateSwingMode where
  | CLIMATE_SWING_OFF
  | CLIMATE_SWING_HORIZONTAL
  | CLIMATE_SWING_VERTICAL
  | CLIMATE_SWING_BOTH
  deriving DecidableEq, Repr

open ClimateMode ClimateFanMode ClimateSwingMode

/-- The configuration members of `MitsubishiClimate` (`mitsubishi.h`), each
held as the numeric value of its enumeration. -/
structure Config where
  fan_low_ : Nat
  fan_medium_ : Nat
  fan_hi_ : Nat
  default_horizontal_direction_ : Nat
  default_vertical_direction_ : Nat
  deriving DecidableEq, Repr

/-- The climate state the component reads and writes (members inherited from
the climate abstraction), with a count of the calls to `publish_state`. -/
structure Climate where
  mode : ClimateMode
  target_temperature : ℚ
  fan_mode : ClimateFanMode
  swing_mode : ClimateSwingMode
  published : Nat
  deriving DecidableEq

/-- The enumerators of `SetFanSpeed`. -/
def isSetFanSpeed (v : Nat) : Bool := v == 1 || v == 2 || v == 3 || v == 4 || v == 5

/-- The enumerators of `HorizontalDirection`. -/
def isHorizontalDirection (v : Nat) : Bool :=
  v == 0x10 || v == 0x20 || v == 0x30 || v == 0x40 || v == 0x50 || v == 0x80

/-- The enumerators of `VerticalDirection`. -/
def isVerticalDirection (v : Nat) : Bool :=
  v == 0x00 || v == 0x08 || v == 0x10 || v == 0x18 || v == 0x20 || v == 0x28

/-- A configuration all of whose members are enumerators of their types. -/
def Config.enumValued (c : Config) : Bool :=
  isSetFanSpeed c.fan_low_ && isSetFanSpeed c.fan_medium_ && isSetFanSpeed c.fan_hi_ &&
    isHorizontalDirection c.default_horizontal_direction_ &&
    isVerticalDirection c.default_vertical_direction_

/-- Modelled from the spec: the helper `clamp<float>` of the core library,
which is not part of the component: the value limited to `[lo, hi]`. -/
def clamp (val lo hi : ℚ) : ℚ :=
  if val < lo then lo else if val > hi then hi else val

/-- The C function `roundf` on exact values: nearest integer, halves away from
zero. -/
def roundf (x : ℚ) : ℤ :=
  if 0 ≤ x then ⌊x + 1 / 2⌋ else -⌊-x + 1 / 2⌋

/-- The conversion `(uint8_t)` of an integral value. -/
def to_uint8 (z : ℤ) : Nat := (z % 256).toNat

/-! ## The transmit collaborator -/

/-- One event of a pulse train: carrier on for `mark`, off for `space`
(microseconds). -/
inductive Pulse where
  | mark (us : Nat)
  | space (us : Nat)
  deriving DecidableEq, Repr

/-- The duration of an event. -/
def Pulse.duration : Pulse → Nat
  | .mark us => us
  | .space us => us

/-- Modelled from the spec: the data object of the transmit collaborator, which
records each carrier-frequency setting and the ordered marks and spaces. -/
structure RemoteTransmitData where
  carrier_frequency : List Nat
  data : List Pulse
  deriving DecidableEq, Repr

def RemoteTransmitData.set_carrier_frequency (d : RemoteTransmitData) (f : Nat) :
    RemoteTransmitData :=
  { d with carrier_frequency := d.carrier_frequency ++ [f] }

def RemoteTransmitData.mark (d : RemoteTransmitData) (us : Nat) : RemoteTransmitData :=
  { d with data := d.data ++ [Pulse.mark us] }

def RemoteTransmitData.space (d : RemoteTransmitData) (us : Nat) : RemoteTransmitData :=
  { d with data := d.data ++ [Pulse.space us] }

/-! ## `MitsubishiClimate::transmit_state` -/

/-- The initialiser of `remote_state`. -/
def remote_state_init : List Nat :=
  [0x23, 0xCB, 0x26, 0x01, 0x00, 0x20, 0x08, 0x00, 0x00,
   0x00, 0x00, 0x00, 0x00, 0x00, 0x00, 0x00, 0x00, 0x00]

/-- The first `switch (this->mode)`. -/
def set_mode (rs : List Nat) (mode : ClimateMode) : List Nat :=
  match mode with
  | CLIMATE_MODE_HEAT => (rs.set 6 MITSUBISHI_MODE_HEAT).set 8 MITSUBISHI_MODE_A_HEAT
  | CLIMATE_MODE_DRY => (rs.set 6 MITSUBISHI_MODE_DRY).set 8 MITSUBISHI_MODE_A_DRY
  | CLIMATE_MODE_COOL => (rs.set 6 MITSUBISHI_MODE_COOL).set 8 MITSUBISHI_MODE_A_COOL
  | CLIMATE_MODE_HEAT_COOL => (rs.set 6 MITSUBISHI_MODE_AUTO).set 8 MITSUBISHI_MODE_A_AUTO
  | _ => rs.set 5 MITSUBISHI_OFF

/-- The temperature block. -/
def set_temperature (rs : List Nat) (mode : ClimateMode) (target_temperature : ℚ) : List Nat :=
  if mode = CLIMATE_MODE_DRY then
    rs.set 7 (u32 (24 - MITSUBISHI_TEMP_MIN))
  else
    rs.set 7 (to_uint8 (roundf
      (clamp target_temperature MITSUBISHI_TEMP_MIN MITSUBISHI_TEMP_MAX - MITSUBISHI_TEMP_MIN)))

/-- The wide-vane `switch (this->swing_mode)`. -/
def set_wide_vane (c : Config) (rs : List Nat) (swing_mode : ClimateSwingMode) : List Nat :=
  match swing_mode with
  | CLIMATE_SWING_HORIZONTAL | CLIMATE_SWING_BOTH =>
      rs.set 8 (u32 (rs.getD 8 0 ||| MITSUBISHI_WIDE_VANE_SWING))
  | _ => rs.set 8 (u32 (rs.getD 8 0 ||| c.default_horizontal_direction_))

/-- The `switch (this->fan_mode.value())`. -/
def set_fan (c : Config) (rs : List Nat) (fan_mode : ClimateFanMode) : List Nat :=
  match fan_mode with
  | CLIMATE_FAN_LOW => rs.set 9 (u32 c.fan_low_)
  | CLIMATE_FAN_MEDIUM => rs.set 9 (u32 c.fan_medium_)
  | CLIMATE_FAN_HIGH => rs.set 9 (u32 c.fan_hi_)
  | _ => rs.set 9 MITSUBISHI_FAN_AUTO

/-- The vertical-vane `switch (this->swing_mode)`. -/
def set_vertical_vane (c : Config) (rs : List Nat) (swing_mode : ClimateSwingMode) : List Nat :=
  match swing_mode with
  | CLIMATE_SWING_VERTICAL | CLIMATE_SWING_BOTH =>
      rs.set 9 (u32 (rs.getD 9 0 ||| MITSUBISHI_VERTICAL_VANE_SWING ||| MITSUBISHI_OTHERWISE))
  | _ => rs.set 9 (u32 (rs.getD 9 0 ||| c.default_vertical_direction_ ||| MITSUBISHI_OTHERWISE))

/-- The checksum loop `for (int i = 0; i < 17; i++) remote_state[17] += remote_state[i];`. -/
def set_checksum (rs : List Nat) : List Nat :=
  (List.range 17).foldl (fun rs i => rs.set 17 (u32 (rs.getD 17 0 + rs.getD i 0))) rs

/-- The array `remote_state` as it stands when modulation starts. -/
def remote_state (c : Config) (s : Climate) : List Nat :=
  let rs := remote_state_init
  let rs := set_mode rs s.mode
  let rs := set_temperature rs s.mode s.target_temperature
  let rs := set_wide_vane c rs s.swing_mode
  let rs := set_fan c rs s.fan_mode
  let rs := set_vertical_vane c rs s.swing_mode
  set_checksum rs

/-- The inner loop over `j`: one mark and one space per bit of the byte `i`. -/
def send_byte (data : RemoteTransmitData) (i : Nat) : RemoteTransmitData :=
  (List.range 8).foldl (fun data j =>
    let data := data.mark MITSUBISHI_BIT_MARK
    let bit : Bool := (i &&& (1 <<< j)) != 0
    data.space (if bit then MITSUBISHI_ONE_SPACE else MITSUBISHI_ZERO_SPACE)) data

/-- The loop `for (uint8_t i : remote_state)`. -/
def send_frame (data : RemoteTransmitData) (rs : List Nat) : RemoteTransmitData :=
  rs.foldl (fun data v => send_byte data (u8 v)) data

/-- The pulse-train part of `transmit_state`, from `remote_state` on. -/
def send_remote_state (rs : List Nat) : RemoteTransmitData :=
  let data : RemoteTransmitData := { carrier_frequency := [], data := [] }
  let data := data.set_carrier_frequency 38000
  let data := (List.range 2).foldl (fun data r =>
    let data := data.mark MITSUBISHI_HEADER_MARK
    let data := data.space MITSUBISHI_HEADER_SPACE
    let data := send_frame data rs
    if r = 0 then
      let data := data.mark MITSUBISHI_BIT_MARK
      data.space MITSUBISHI_MIN_GAP
    else data) data
  data.mark MITSUBISHI_BIT_MARK

/-- The method `MitsubishiClimate::transmit_state`: what is handed to the
transmit collaborator. -/
def transmit_state (c : Config) (s : Climate) : RemoteTransmitData :=
  send_remote_state (remote_state c s)

/-- The bytes the modulation loop sends: each entry of `remote_state` converted
to `uint8_t`. -/
def frame_bytes (c : Config) (s : Climate) : List Nat :=
  (remote_state c s).map u8

/-! ## The receive collaborator -/

/-- Modelled from the spec: the capture handed over by the receive
collaborator, which is not part of the component: the events not yet consumed,
and the collaborator's tolerance test `tolerates expected observed`, taken as a
parameter. -/
structure RemoteReceiveData where
  data : List Pulse
  tolerates : Nat → Nat → Bool

/-- Modelled from the spec: the query `expect_item` of the receive
collaborator: when the next two events are a mark tolerated for `mark` and a
space tolerated for `space` they are consumed and the answer is `true`;
otherwise nothing is consumed and the answer is `false`. -/
def RemoteReceiveData.expect_item (d : RemoteReceiveData) (mark space : Nat) :
    Bool × RemoteReceiveData :=
  match d.data with
  | Pulse.mark m :: Pulse.space s :: rest =>
      if d.tolerates mark m && d.tolerates space s then (true, { d with data := rest })
      else (false, d)
  | _ => (false, d)

/-- A tolerance test by percentage: the observed duration lies within
`percent` per cent of the expected one. -/
def within_percent (percent : Nat) (expected observed : Nat) : Bool :=
  (100 - percent) * expected / 100 ≤ observed && observed ≤ (100 + percent) * expected / 100

/-! ## `MitsubishiClimate::on_receive` -/

/-- The loop `for (int8_t bit = 0; bit < 8; bit++)`, with `n` iterations left;
`none` is the `return false` inside it. -/
def receive_bits : Nat → Nat → Nat → RemoteReceiveData → Option (Nat × RemoteReceiveData)
  | 0, _, byte, data => some (byte, data)
  | n + 1, bit, byte, data =>
    match data.expect_item MITSUBISHI_BIT_MARK MITSUBISHI_ONE_SPACE with
    | (true, data) => receive_bits n (bit + 1) (u8 (byte ||| (1 <<< bit))) data
    | (false, data) =>
      match data.expect_item MITSUBISHI_BIT_MARK MITSUBISHI_ZERO_SPACE with
      | (true, data) => receive_bits n (bit + 1) byte data
      | (false, _) => none

/-- The condition of the `if` under `// Check Header && Footer`. -/
def marker_mismatch (pos byte : Nat) : Bool :=
  (pos == 0 && byte != MITSUBISHI_BYTE00) || (pos == 1 && byte != MITSUBISHI_BYTE01) ||
  (pos == 2 && byte != MITSUBISHI_BYTE02) || (pos == 3 && byte != MITSUBISHI_BYTE03) ||
  (pos == 4 && byte != MITSUBISHI_BYTE04) || (pos == 13 && byte != MITSUBISHI_BYTE13) ||
  (pos == 16 && byte != MITSUBISHI_BYTE16)

/-- The loop `for (uint8_t pos = 0; pos < 18; pos++)`, with `n` iterations
left; `none` is a `return false` inside it. -/
def receive_bytes : Nat → Nat → List Nat → RemoteReceiveData → Option (List Nat)
  | 0, _, state_frame, _ => some state_frame
  | n + 1, pos, state_frame, data =>
    match receive_bits 8 0 0 data with
    | none => none
    | some (byte, data) =>
      let state_frame := state_frame.set pos byte
      if marker_mismatch pos byte then none
      else receive_bytes n (pos + 1) state_frame data

/-- The demodulation part of `on_receive`: the header test and the byte loop;
`none` is a `return false`. -/
def receive_frame (data : RemoteReceiveData) : Option (List Nat) :=
  let state_frame : List Nat := List.replicate 18 0
  match data.expect_item MITSUBISHI_HEADER_MARK MITSUBISHI_HEADER_SPACE with
  | (false, _) => none
  | (true, data) => receive_bytes 18 0 state_frame data

/-- The block `// On/Off and Mode`. -/
def decode_mode (state_frame : List Nat) (s : Climate) : Climate :=
  if state_frame.getD 5 0 = MITSUBISHI_OFF then
    { s with mode := CLIMATE_MODE_OFF }
  else if state_frame.getD 6 0 = MITSUBISHI_MODE_HEAT then { s with mode := CLIMATE_MODE_HEAT }
  else if state_frame.getD 6 0 = MITSUBISHI_MODE_DRY then { s with mode := CLIMATE_MODE_DRY }
  else if state_frame.getD 6 0 = MITSUBISHI_MODE_COOL then { s with mode := CLIMATE_MODE_COOL }
  else if state_frame.getD 6 0 = MITSUBISHI_MODE_AUTO then
    { s with mode := CLIMATE_MODE_HEAT_COOL }
  else s

/-- The block `// Temp`. -/
def decode_temperature (state_frame : List Nat) (s : Climate) : Climate :=
  { s with target_temperature := ((state_frame.getD 7 0 + MITSUBISHI_TEMP_MIN : Nat) : ℚ) }

/-- The block `// Fan`. -/
def decode_fan (c : Config) (state_frame : List Nat) (s : Climate) : Climate :=
  let fan := state_frame.getD 9 0 &&& 0x07
  if fan = MITSUBISHI_FAN_AUTO then { s with fan_mode := CLIMATE_FAN_AUTO }
  else if fan ≤ c.fan_low_ then { s with fan_mode := CLIMATE_FAN_LOW }
  else if fan > c.fan_low_ ∧ fan < c.fan_hi_ then { s with fan_mode := CLIMATE_FAN_MEDIUM }
  else if fan ≥ c.fan_hi_ then { s with fan_mode := CLIMATE_FAN_HIGH }
  else s

/-- The block `// Wide Vane`. -/
def decode_wide_vane (state_frame : List Nat) (s : Climate) : Climate :=
  let wide_vane := state_frame.getD 8 0 &&& 0xF0
  if wide_vane = MITSUBISHI_WIDE_VANE_SWING then { s with swing_mode := CLIMATE_SWING_HORIZONTAL }
  else { s with swing_mode := CLIMATE_SWING_OFF }

/-- The block `// Vertical Vane`. -/
def decode_vertical_vane (state_frame : List Nat) (s : Climate) : Climate :=
  let vertical_vane := state_frame.getD 9 0 &&& 0x38
  if vertical_vane = MITSUBISHI_VERTICAL_VANE_SWING then
    if s.swing_mode = CLIMATE_SWING_HORIZONTAL then { s with swing_mode := CLIMATE_SWING_BOTH }
    else { s with swing_mode := CLIMATE_SWING_VERTICAL }
  else s

/-- The call `this->publish_state()`. -/
def Climate.publish_state (s : Climate) : Climate :=
  { s with published := s.published + 1 }

/-- The field extraction of `on_receive`, from the assembled `state_frame` to
the published state. -/
def decode_state (c : Config) (state_frame : List Nat) (s : Climate) : Climate :=
  let s := decode_mode state_frame s
  let s := decode_temperature state_frame s
  let s := decode_fan c state_frame s
  let s := decode_wide_vane state_frame s
  let s := decode_vertical_vane state_frame s
  s.publish_state

/-- The method `MitsubishiClimate::on_receive`: its return value and the
climate state after the call. -/
def on_receive (c : Config) (s : Climate) (data : RemoteReceiveData) : Bool × Climate :=
  match receive_frame data with
  | none => (false, s)
  | some state_frame => (true, decode_state c state_frame s)


/-! ## Derived descriptions used by the properties -/

/-- The mark and space of one bit, as the body of the loop over `j` emits them. -/
def bit_pair (b : Bool) : List Pulse :=
  [Pulse.mark MITSUBISHI_BIT_MARK,
   Pulse.space (if b then MITSUBISHI_ONE_SPACE else MITSUBISHI_ZERO_SPACE)]

/-- The tests `i & (1 << j)` for `j = 0 .. 7`. -/
def byte_bits (i : Nat) : List Bool :=
  (List.range 8).map (fun j => (i &&& (1 <<< j)) != 0)

/-- The marks and spaces of one byte, as the loop over `j` emits them. -/
def byte_pulses (i : Nat) : List Pulse :=
  (byte_bits i).flatMap bit_pair

/-- The marks and spaces of the data part of one repetition. -/
def frame_pulses (rs : List Nat) : List Pulse :=
  rs.flatMap (fun v => byte_pulses (u8 v))

/-- The value the bit loop of `on_receive` builds from the bits it reads. -/
def assemble : Nat → Nat → List Bool → Nat
  | _, byte, [] => byte
  | bit, byte, b :: bs => assemble (bit + 1) (if b then u8 (byte ||| (1 <<< bit)) else byte) bs

/-- No marker test of the byte loop fails on the bytes `bs` stored from
position `pos` on. -/
def markers_ok : Nat → List Nat → Bool
  | _, [] => true
  | pos, b :: bs => !marker_mismatch pos b && markers_ok (pos + 1) bs

/-- A tolerance test that reads an undistorted pulse train: it accepts each
nominal duration of the protocol for itself, and does not accept a zero space
where a one space is expected. -/
def nominal (tol : Nat → Nat → Bool) : Bool :=
  tol MITSUBISHI_HEADER_MARK MITSUBISHI_HEADER_MARK &&
  tol MITSUBISHI_HEADER_SPACE MITSUBISHI_HEADER_SPACE &&
  tol MITSUBISHI_BIT_MARK MITSUBISHI_BIT_MARK &&
  tol MITSUBISHI_ONE_SPACE MITSUBISHI_ONE_SPACE &&
  tol MITSUBISHI_ZERO_SPACE MITSUBISHI_ZERO_SPACE &&
  !tol MITSUBISHI_ONE_SPACE MITSUBISHI_ZERO_SPACE

/-- Entry 5 of `remote_state` (power), read off the mode switch. -/
def entry5 (mode : ClimateMode) : Nat :=
  match mode with
  | CLIMATE_MODE_OFF => 0x00
  | _ => 0x20

/-- Entry 6 of `remote_state` (mode), read off the initialiser and the mode
switch. -/
def entry6 (mode : ClimateMode) : Nat :=
  match mode with
  | CLIMATE_MODE_OFF => 0x08
  | CLIMATE_MODE_HEAT => 0x08
  | CLIMATE_MODE_DRY => 0x10
  | CLIMATE_MODE_COOL => 0x18
  | CLIMATE_MODE_HEAT_COOL => 0x20

/-- The secondary mode code the mode switch leaves in entry 8. -/
def mode_a (mode : ClimateMode) : Nat :=
  match mode with
  | CLIMATE_MODE_OFF => 0x00
  | CLIMATE_MODE_HEAT => 0x00
  | CLIMATE_MODE_DRY => 0x02
  | CLIMATE_MODE_COOL => 0x06
  | CLIMATE_MODE_HEAT_COOL => 0x06

/-- Entry 7 of `remote_state` (temperature). -/
def entry7 (mode : ClimateMode) (target_temperature : ℚ) : Nat :=
  if mode = CLIMATE_MODE_DRY then 8
  else to_uint8 (roundf (clamp target_temperature 16 31 - 16))

/-- The wide-vane code merged into entry 8. -/
def wide_vane_code (c : Config) (swing_mode : ClimateSwingMode) : Nat :=
  match swing_mode with
  | CLIMATE_SWING_HORIZONTAL => 0xC0
  | CLIMATE_SWING_BOTH => 0xC0
  | _ => c.default_horizontal_direction_

/-- The fan code stored in entry 9. -/
def fan_code (c : Config) (fan_mode : ClimateFanMode) : Nat :=
  match fan_mode with
  | CLIMATE_FAN_AUTO => 0
  | CLIMATE_FAN_LOW => u32 c.fan_low_
  | CLIMATE_FAN_MEDIUM => u32 c.fan_medium_
  | CLIMATE_FAN_HIGH => u32 c.fan_hi_

/-- The vertical-vane code merged into entry 9. -/
def vertical_vane_code (c : Config) (swing_mode : ClimateSwingMode) : Nat :=
  match swing_mode with
  | CLIMATE_SWING_VERTICAL => 0x38
  | CLIMATE_SWING_BOTH => 0x38
  | _ => c.default_vertical_direction_

/-- Entry 8 of `remote_state`. -/
def entry8 (c : Config) (s : Climate) : Nat :=
  u32 (mode_a s.mode ||| wide_vane_code c s.swing_mode)

/-- Entry 9 of `remote_state`. -/
def entry9 (c : Config) (s : Climate) : Nat :=
  u32 (fan_code c s.fan_mode ||| vertical_vane_code c s.swing_mode ||| 0x40)

/-- Entry 17 of `remote_state` (the checksum, before its conversion to a byte). -/
def entry17 (c : Config) (s : Climate) : Nat :=
  u32 (0 + 0x23 + 0xCB + 0x26 + 0x01 + 0x00 + entry5 s.mode + entry6 s.mode +
    entry7 s.mode s.target_temperature + entry8 c s + entry9 c s + 0 + 0 + 0 + 0 + 0 + 0 + 0)

/-! ## The frame of a capture, in the words of the spec -/

/-- The capture starts with a mark tolerated for `mark` followed by a space
tolerated for `space`. -/
def pair_matches (tol : Nat → Nat → Bool) (mark space : Nat) : List Pulse → Bool
  | Pulse.mark m :: Pulse.space s :: _ => tol mark m && tol space s
  | _ => false

/-- The capture starts with `n` pairs each matching (430, 1250), read as bit 1,
or (430, 390), read as bit 0: the bits in order, and the events after them. -/
def spec_bits (tol : Nat → Nat → Bool) : Nat → List Pulse → Option (List Bool × List Pulse)
  | 0, l => some ([], l)
  | n + 1, l =>
    if pair_matches tol 430 1250 l then
      (spec_bits tol n (l.drop 2)).map (fun r => (true :: r.1, r.2))
    else if pair_matches tol 430 390 l then
      (spec_bits tol n (l.drop 2)).map (fun r => (false :: r.1, r.2))
    else none

/-- The number whose binary digits are `bits`, least significant first. -/
def lsb_value : List Bool → Nat
  | [] => 0
  | b :: bs => b.toNat + 2 * lsb_value bs

/-- The first `n` bytes of a bit sequence, eight bits to the byte, each
assembled least significant bit first. -/
def bytes_of_bits : Nat → List Bool → List Nat
  | 0, _ => []
  | n + 1, bits => lsb_value (bits.take 8) :: bytes_of_bits n (bits.drop 8)

/-- The bytes at positions 0, 1, 2, 3, 4, 13 and 16 are 0x23, 0xCB, 0x26, 0x01,
0x00, 0x00 and 0x00. -/
def markers_match (bytes : List Nat) : Bool :=
  bytes.getD 0 0 == 0x23 && bytes.getD 1 0 == 0xCB && bytes.getD 2 0 == 0x26 &&
  bytes.getD 3 0 == 0x01 && bytes.getD 4 0 == 0x00 && bytes.getD 13 0 == 0x00 &&
  bytes.getD 16 0 == 0x00

/-- The frame a capture carries, in the words of the spec: a pair matching the
header (3500, 1700), then 144 bit pairs, whose eighteen bytes have the marker
values at the marker positions; `none` when the capture is not of that form. -/
def spec_frame (tol : Nat → Nat → Bool) (data : List Pulse) : Option (List Nat) :=
  if pair_matches tol 3500 1700 data then
    match spec_bits tol 144 (data.drop 2) with
    | none => none
    | some (bits, _) =>
      if markers_match (bytes_of_bits 18 bits) then some (bytes_of_bits 18 bits) else none
  else none

/-- The capture is one that the spec says is accepted. -/
def spec_accepts (tol : Nat → Nat → Bool) (data : List Pulse) : Bool :=
  (spec_frame tol data).isSome

/-! ## The pulse train of a frame, in the words of the spec -/

/-- Bit `j` of `b` is set. -/
def bit_set (b j : Nat) : Bool := b / 2 ^ j % 2 == 1

/-- The pair of bit `j` of byte `b`: (430, 1250) when the bit is set and
(430, 390) otherwise. -/
def spec_bit_pair (b j : Nat) : List Pulse :=
  if bit_set b j then [Pulse.mark 430, Pulse.space 1250] else [Pulse.mark 430, Pulse.space 390]

/-- The data part `B`: for each byte in index order and each bit `j = 0 .. 7`,
its pair. -/
def spec_data (bytes : List Nat) : List Pulse :=
  bytes.flatMap (fun b => (List.range 8).flatMap (spec_bit_pair b))

/-- The header `H`. -/
def spec_header : List Pulse := [Pulse.mark 3500, Pulse.space 1700]

/-- The whole train `H ++ B ++ [430, 17500] ++ H ++ B ++ [430]`. -/
def spec_pulse_train (bytes : List Nat) : List Pulse :=
  spec_header ++ spec_data bytes ++ [Pulse.mark 430, Pulse.space 17500] ++
    spec_header ++ spec_data bytes ++ [Pulse.mark 430]

/-- The order of the fan speeds: Auto, Low, Medium, High. -/
def fan_rank : ClimateFanMode → Nat
  | CLIMATE_FAN_AUTO => 0
  | CLIMATE_FAN_LOW => 1
  | CLIMATE_FAN_MEDIUM => 2
  | CLIMATE_FAN_HIGH => 3

/-! ## Byte 9, in the words of the spec -/

/-- The part `F` of byte 9: 0 for fan Auto, `fan_low` for Low, `fan_medium` for
Medium, `fan_hi` for High. -/
def spec_F (c : Config) (fan_mode : ClimateFanMode) : Nat :=
  match fan_mode with
  | CLIMATE_FAN_AUTO => 0
  | CLIMATE_FAN_LOW => c.fan_low_
  | CLIMATE_FAN_MEDIUM => c.fan_medium_
  | CLIMATE_FAN_HIGH => c.fan_hi_

/-- The part `V` of byte 9: `0x38` when swing is Vertical or Both, the
configured default vertical direction otherwise. -/
def spec_V (c : Config) (swing_mode : ClimateSwingMode) : Nat :=
  if swing_mode = CLIMATE_SWING_VERTICAL ∨ swing_mode = CLIMATE_SWING_BOTH then 0x38
  else c.default_vertical_direction_

/-- The primary and secondary mode codes of the spec's mode table (the table
has no row for Off). -/
def spec_mode_codes (mode : ClimateMode) : Nat × Nat :=
  match mode with
  | CLIMATE_MODE_HEAT => (0x08, 0x00)
  | CLIMATE_MODE_DRY => (0x10, 0x02)
  | CLIMATE_MODE_COOL => (0x18, 0x06)
  | CLIMATE_MODE_HEAT_COOL => (0x20, 0x06)
  | CLIMATE_MODE_OFF => (0x00, 0x00)

/-! ## Sample inputs -/

/-- A configuration: fan thresholds 2, 3, 5, horizontal default `0x30`
(middle), vertical default `0x18` (middle). -/
def sample_config : Config :=
  { fan_low_ := 2, fan_medium_ := 3, fan_hi_ := 5,
    default_horizontal_direction_ := 0x30, default_vertical_direction_ := 0x18 }

/-- A state to transmit: Heat, 23 degrees, fan Low, swing Off. -/
def sample_heat : Climate :=
  { mode := CLIMATE_MODE_HEAT, target_temperature := 23, fan_mode := CLIMATE_FAN_LOW,
    swing_mode := CLIMATE_SWING_OFF, published := 0 }

/-- A state of the receiver before a capture arrives. -/
def sample_prior : Climate :=
  { mode := CLIMATE_MODE_COOL, target_temperature := 20, fan_mode := CLIMATE_FAN_HIGH,
    swing_mode := CLIMATE_SWING_VERTICAL, published := 7 }

/-- A state to transmit: Off, 21 degrees, fan Auto, swing Horizontal. -/
def sample_off : Climate :=
  { mode := CLIMATE_MODE_OFF, target_temperature := 21, fan_mode := CLIMATE_FAN_AUTO,
    swing_mode := CLIMATE_SWING_HORIZONTAL, published := 0 }

/-- A frame with the marker bytes, power on, the mode code `0x28` that no
mode has, temperature byte 7, and a correct checksum. -/
def sample_frame_unknown_mode : List Nat :=
  [0x23, 0xCB, 0x26, 0x01, 0x00, 0x20, 0x28, 0x07, 0x30, 0x5A,
    0x00, 0x00, 0x00, 0x00, 0x00, 0x00, 0x00, 0xEE]

/-- A frame with the marker bytes, power on, mode Heat, temperature byte
`0x10`, and a correct checksum. -/
def sample_frame_byte7_16 : List Nat :=
  [0x23, 0xCB, 0x26, 0x01, 0x00, 0x20, 0x08, 0x10, 0x30, 0x5A,
    0x00, 0x00, 0x00, 0x00, 0x00, 0x00, 0x00, 0xD7]

/-- The frame of Heat, 23 degrees, fan Low, swing Off under the sample
configuration, with its checksum `0xCE`. -/
def sample_frame_heat : List Nat :=
  [0x23, 0xCB, 0x26, 0x01, 0x00, 0x20, 0x08, 0x07, 0x30, 0x5A,
    0x00, 0x00, 0x00, 0x00, 0x00, 0x00, 0x00, 0xCE]

/-! # Properties -/

/-! ## Modulation -/

theorem range_eight : List.range 8 = [0, 1, 2, 3, 4, 5, 6, 7] := by decide

theorem range_seventeen :
    List.range 17 = [0, 1, 2, 3, 4, 5, 6, 7, 8, 9, 10, 11, 12, 13, 14, 15, 16] := by decide

theorem send_byte_data (d : RemoteTransmitData) (i : Nat) :
    (send_byte d i).data = d.data ++ byte_pulses i := by
  simp only [send_byte, byte_pulses, byte_bits, bit_pair, range_eight, List.foldl_cons,
    List.foldl_nil, List.map_cons, List.map_nil, List.flatMap_cons, List.flatMap_nil,
    RemoteTransmitData.mark, RemoteTransmitData.space, List.append_assoc, List.cons_append,
    List.nil_append, List.append_nil]

theorem send_byte_carrier (d : RemoteTransmitData) (i : Nat) :
    (send_byte d i).carrier_frequency = d.carrier_frequency := by
  simp [send_byte, range_eight, RemoteTransmitData.mark, RemoteTransmitData.space]

theorem send_frame_data (rs : List Nat) (d : RemoteTransmitData) :
    (send_frame d rs).data = d.data ++ frame_pulses rs := by
  induction rs generalizing d with
  | nil => simp [send_frame, frame_pulses]
  | cons v rs ih =>
    have h := ih (send_byte d (u8 v))
    simp only [send_frame, List.foldl_cons] at h ⊢
    rw [h, send_byte_data]
    simp [frame_pulses]

theorem send_frame_carrier (rs : List Nat) (d : RemoteTransmitData) :
    (send_frame d rs).carrier_frequency = d.carrier_frequency := by
  induction rs generalizing d with
  | nil => simp [send_frame]
  | cons v rs ih =>
    have h := ih (send_byte d (u8 v))
    simp only [send_frame, List.foldl_cons] at h ⊢
    rw [h, send_byte_carrier]

/-- The events `transmit_state` hands over, in terms of the loop bodies. -/
theorem send_remote_state_data (rs : List Nat) :
    (send_remote_state rs).data =
      Pulse.mark MITSUBISHI_HEADER_MARK :: Pulse.space MITSUBISHI_HEADER_SPACE ::
        (frame_pulses rs ++
          Pulse.mark MITSUBISHI_BIT_MARK :: Pulse.space MITSUBISHI_MIN_GAP ::
          Pulse.mark MITSUBISHI_HEADER_MARK :: Pulse.space MITSUBISHI_HEADER_SPACE ::
            (frame_pulses rs ++ [Pulse.mark MITSUBISHI_BIT_MARK])) := by
  have h2 : List.range 2 = [0, 1] := by decide
  simp [send_remote_state, h2, send_frame_data, RemoteTransmitData.mark,
    RemoteTransmitData.space, RemoteTransmitData.set_carrier_frequency]

theorem send_remote_state_carrier (rs : List Nat) :
    (send_remote_state rs).carrier_frequency = [38000] := by
  have h2 : List.range 2 = [0, 1] := by decide
  simp [send_remote_state, h2, send_frame_carrier, RemoteTransmitData.mark,
    RemoteTransmitData.space, RemoteTransmitData.set_carrier_frequency]

/-- The mask test of the modulation loop is the test of bit `j`. -/
theorem mask_test_eq_bit_set (b j : Nat) : ((b &&& (1 <<< j)) != 0) = bit_set b j := by
  unfold bit_set
  rw [Nat.one_shiftLeft, Nat.and_two_pow]
  have := Nat.testBit_to_div_mod (x := b) (i := j)
  rcases h : b.testBit j with _ | _ <;> simp_all

/-! ## The array `remote_state` -/

/-- The checksum loop on an explicit array. -/
theorem set_checksum_eq (a0 a1 a2 a3 a4 a5 a6 a7 a8 a9 a10 a11 a12 a13 a14 a15 a16 a17 : Nat) :
    set_checksum [a0, a1, a2, a3, a4, a5, a6, a7, a8, a9, a10, a11, a12, a13, a14, a15, a16, a17] =
      [a0, a1, a2, a3, a4, a5, a6, a7, a8, a9, a10, a11, a12, a13, a14, a15, a16,
        u32 (a17 + a0 + a1 + a2 + a3 + a4 + a5 + a6 + a7 + a8 + a9 + a10 + a11 + a12 + a13 +
          a14 + a15 + a16)] := by
  simp only [set_checksum, range_seventeen, List.foldl_cons, List.foldl_nil, List.getD_cons_succ,
    List.getD_cons_zero, List.set_cons_succ, List.set_cons_zero, u32]
  simp only [List.cons.injEq, true_and, and_true]
  omega

/-- The array `remote_state`, entry by entry. -/
theorem remote_state_eq (c : Config) (s : Climate) :
    remote_state c s =
      [0x23, 0xCB, 0x26, 0x01, 0x00, entry5 s.mode, entry6 s.mode,
        entry7 s.mode s.target_temperature, entry8 c s, entry9 c s,
        0, 0, 0, 0, 0, 0, 0, entry17 c s] := by
  have hT : ((MITSUBISHI_TEMP_MIN : Nat) : ℚ) = 16 := by norm_num [MITSUBISHI_TEMP_MIN]
  have hT' : ((MITSUBISHI_TEMP_MAX : Nat) : ℚ) = 31 := by norm_num [MITSUBISHI_TEMP_MAX]
  have h8 : u32 (24 - MITSUBISHI_TEMP_MIN) = 8 := by decide
  unfold remote_state entry17 entry8 entry9
  cases hm : s.mode <;> cases hs : s.swing_mode <;> cases hf : s.fan_mode <;>
    simp only [remote_state_init, set_mode, set_temperature, set_wide_vane, set_fan,
      set_vertical_vane, List.getD_cons_succ, List.getD_cons_zero, List.set_cons_succ,
      List.set_cons_zero, entry5, entry6, entry7, mode_a, wide_vane_code, fan_code,
      vertical_vane_code, set_checksum_eq, hT, hT', h8, reduceCtorEq, if_true, if_false,
      MITSUBISHI_OFF, MITSUBISHI_MODE_HEAT, MITSUBISHI_MODE_DRY, MITSUBISHI_MODE_COOL,
      MITSUBISHI_MODE_AUTO, MITSUBISHI_MODE_A_HEAT, MITSUBISHI_MODE_A_DRY, MITSUBISHI_MODE_A_COOL,
      MITSUBISHI_MODE_A_AUTO, MITSUBISHI_WIDE_VANE_SWING, MITSUBISHI_FAN_AUTO,
      MITSUBISHI_VERTICAL_VANE_SWING, MITSUBISHI_OTHERWISE, Nat.zero_or]

/-- The bytes sent, entry by entry. -/
theorem frame_bytes_eq (c : Config) (s : Climate) :
    frame_bytes c s =
      [0x23, 0xCB, 0x26, 0x01, 0x00, u8 (entry5 s.mode), u8 (entry6 s.mode),
        u8 (entry7 s.mode s.target_temperature), u8 (entry8 c s), u8 (entry9 c s),
        0, 0, 0, 0, 0, 0, 0, u8 (entry17 c s)] := by
  simp [frame_bytes, remote_state_eq, u8]

/-! ## Temperature -/

theorem clamp_ge (T : ℚ) : (16 : ℚ) ≤ clamp T 16 31 := by
  unfold clamp; split_ifs <;> linarith

theorem clamp_le (T : ℚ) : clamp T 16 31 ≤ (31 : ℚ) := by
  unfold clamp; split_ifs <;> linarith

theorem clamp_of_mem (T : ℚ) (h1 : 16 ≤ T) (h2 : T ≤ 31) : clamp T 16 31 = T := by
  unfold clamp; split_ifs <;> linarith

theorem roundf_eq_round (x : ℚ) (h : 0 ≤ x) : roundf x = round x := by
  rw [round_eq]; simp [roundf, h]

theorem round_clamp_bounds (T : ℚ) :
    (16 : ℤ) ≤ round (clamp T 16 31) ∧ round (clamp T 16 31) ≤ (31 : ℤ) := by
  have h1 := clamp_ge T
  have h2 := clamp_le T
  rw [round_eq]
  constructor
  · apply Int.le_floor.mpr; push_cast; linarith
  · have : ⌊clamp T 16 31 + 1 / 2⌋ < 32 := by
      apply Int.floor_lt.mpr; push_cast; linarith
    omega

/-- The temperature byte of a mode other than Dry. -/
theorem to_uint8_roundf_clamp (T : ℚ) :
    ((to_uint8 (roundf (clamp T 16 31 - 16)) : Nat) : ℤ) = round (clamp T 16 31) - 16 := by
  have h1 := clamp_ge T
  have hb := round_clamp_bounds T
  rw [roundf_eq_round _ (by linarith)]
  have : round (clamp T 16 31 - 16) = round (clamp T 16 31) - 16 := by
    simp
  rw [this]
  unfold to_uint8
  omega

/-! ## Demodulation of an arbitrary capture -/

theorem expect_item_eq (tol : Nat → Nat → Bool) (l : List Pulse) (mark space : Nat) :
    RemoteReceiveData.expect_item ⟨l, tol⟩ mark space =
      if pair_matches tol mark space l then (true, ⟨l.drop 2, tol⟩) else (false, ⟨l, tol⟩) := by
  unfold RemoteReceiveData.expect_item
  match l with
  | [] => simp [pair_matches]
  | [_] => simp [pair_matches]
  | Pulse.space _ :: _ :: _ => simp [pair_matches]
  | Pulse.mark _ :: Pulse.mark _ :: _ => simp [pair_matches]
  | Pulse.mark m :: Pulse.space s :: rest => simp [pair_matches]

theorem receive_bits_eq (tol : Nat → Nat → Bool) (n : Nat) :
    ∀ (bit byte : Nat) (l : List Pulse),
      receive_bits n bit byte ⟨l, tol⟩ =
        (spec_bits tol n l).map (fun r => (assemble bit byte r.1, ⟨r.2, tol⟩)) := by
  induction n with
  | zero => intro bit byte l; simp [receive_bits, spec_bits, assemble]
  | succ n ih =>
    intro bit byte l
    simp only [receive_bits, spec_bits, expect_item_eq, MITSUBISHI_BIT_MARK, MITSUBISHI_ONE_SPACE,
      MITSUBISHI_ZERO_SPACE]
    cases h1 : pair_matches tol 430 1250 l <;> cases h0 : pair_matches tol 430 390 l <;>
      simp [expect_item_eq, h1, h0, ih, Option.map_map, Function.comp_def, assemble]

theorem spec_bits_length (tol : Nat → Nat → Bool) (n : Nat) :
    ∀ (l : List Pulse) (r : List Bool × List Pulse), spec_bits tol n l = some r → r.1.length = n := by
  induction n with
  | zero => intro l r h; simp [spec_bits] at h; simp [← h]
  | succ n ih =>
    intro l r h
    simp only [spec_bits] at h
    split_ifs at h
    · simp only [Option.map_eq_some'] at h
      obtain ⟨a, ha, rfl⟩ := h
      simp [ih _ _ ha]
    · simp only [Option.map_eq_some'] at h
      obtain ⟨a, ha, rfl⟩ := h
      simp [ih _ _ ha]

theorem spec_bits_add (tol : Nat → Nat → Bool) (a b : Nat) :
    ∀ l : List Pulse, spec_bits tol (a + b) l =
      (spec_bits tol a l).bind (fun r =>
        (spec_bits tol b r.2).map (fun q => (r.1 ++ q.1, q.2))) := by
  induction a with
  | zero => intro l; simp [spec_bits]
  | succ a ih =>
    intro l
    have e : a + 1 + b = (a + b) + 1 := by omega
    rw [e]
    simp only [spec_bits]
    split_ifs
    · rw [ih]; cases spec_bits tol a (List.drop 2 l) <;> simp [Option.map_map, Function.comp_def]
    · rw [ih]; cases spec_bits tol a (List.drop 2 l) <;> simp [Option.map_map, Function.comp_def]
    · simp

theorem assemble_eq_lsb_value (b0 b1 b2 b3 b4 b5 b6 b7 : Bool) :
    assemble 0 0 [b0, b1, b2, b3, b4, b5, b6, b7] = lsb_value [b0, b1, b2, b3, b4, b5, b6, b7] := by
  cases b0 <;> cases b1 <;> cases b2 <;> cases b3 <;> cases b4 <;> cases b5 <;> cases b6 <;>
    cases b7 <;> rfl

theorem assemble_length_eight (bits : List Bool) (h : bits.length = 8) :
    assemble 0 0 bits = lsb_value bits := by
  match bits, h with
  | [b0, b1, b2, b3, b4, b5, b6, b7], _ => exact assemble_eq_lsb_value ..

theorem receive_bytes_eq (tol : Nat → Nat → Bool) (n : Nat) :
    ∀ (pos : Nat) (pre post : List Nat) (l : List Pulse),
      pre.length = pos → post.length = n →
      receive_bytes n pos (pre ++ post) ⟨l, tol⟩ =
        (spec_bits tol (8 * n) l).bind (fun r =>
          if markers_ok pos (bytes_of_bits n r.1) then some (pre ++ bytes_of_bits n r.1)
          else none) := by
  induction n with
  | zero =>
    intro pos pre post l _ hpost
    have : post = [] := List.length_eq_zero.mp hpost
    simp [receive_bytes, spec_bits, bytes_of_bits, markers_ok, this]
  | succ n ih =>
    intro pos pre post l hpre hpost
    obtain ⟨p, post, rfl⟩ : ∃ p q, post = p :: q := by
      cases post with
      | nil => simp at hpost
      | cons p q => exact ⟨p, q, rfl⟩
    have e : 8 * (n + 1) = 8 + 8 * n := by omega
    rw [e, spec_bits_add]
    simp only [receive_bytes, receive_bits_eq]
    cases h8 : spec_bits tol 8 l with
    | none => simp
    | some r =>
      obtain ⟨b8, l'⟩ := r
      have hlen : b8.length = 8 := spec_bits_length tol 8 l _ h8
      have hset : (pre ++ p :: post).set pos (lsb_value b8) = (pre ++ [lsb_value b8]) ++ post := by
        subst hpre
        simp
      simp only [Option.map_some', Option.some_bind, assemble_length_eight b8 hlen, hset]
      have hih := ih (pos + 1) (pre ++ [lsb_value b8]) post l' (by simp [hpre])
        (by simpa using hpost)
      cases hm : marker_mismatch pos (lsb_value b8) with
      | true =>
        cases spec_bits tol (8 * n) l' with
        | none => simp
        | some q => simp [bytes_of_bits, markers_ok, hlen, hm]
      | false =>
        rw [if_neg (by simp), hih]
        cases spec_bits tol (8 * n) l' with
        | none => simp
        | some q => simp [bytes_of_bits, markers_ok, hlen, hm]

theorem bytes_of_bits_length (n : Nat) : ∀ bits : List Bool, (bytes_of_bits n bits).length = n := by
  induction n with
  | zero => intro bits; rfl
  | succ n ih => intro bits; simp [bytes_of_bits, ih]

theorem markers_ok_iff (bytes : List Nat) (h : bytes.length = 18) :
    markers_ok 0 bytes = markers_match bytes := by
  match bytes, h with
  | [a0, a1, a2, a3, a4, a5, a6, a7, a8, a9, a10, a11, a12, a13, a14, a15, a16, a17], _ =>
    simp [markers_ok, marker_mismatch, markers_match, MITSUBISHI_BYTE00, MITSUBISHI_BYTE01,
      MITSUBISHI_BYTE02, MITSUBISHI_BYTE03, MITSUBISHI_BYTE04, MITSUBISHI_BYTE13,
      MITSUBISHI_BYTE16, bne, Bool.and_assoc]

/-- The demodulation loop of `on_receive` computes the frame of the capture. -/
theorem receive_frame_eq (tol : Nat → Nat → Bool) (l : List Pulse) :
    receive_frame ⟨l, tol⟩ = spec_frame tol l := by
  unfold receive_frame spec_frame
  simp only [expect_item_eq, MITSUBISHI_HEADER_MARK, MITSUBISHI_HEADER_SPACE]
  cases hh : pair_matches tol 3500 1700 l with
  | false => simp
  | true =>
    have := receive_bytes_eq tol 18 0 [] (List.replicate 18 0) (l.drop 2) rfl (by simp)
    simp only [List.nil_append, Nat.reduceMul] at this
    simp only [if_true, this]
    cases hb : spec_bits tol 144 (List.drop 2 l) with
    | none => simp
    | some r =>
      simp [markers_ok_iff _ (bytes_of_bits_length 18 r.1)]

/-! ## Demodulation of a modulated frame -/

theorem receive_bits_pulses (tol : Nat → Nat → Bool) (h : nominal tol = true)
    (bs : List Bool) (bit byte : Nat) (rest : List Pulse) :
    receive_bits bs.length bit byte ⟨bs.flatMap bit_pair ++ rest, tol⟩ =
      some (assemble bit byte bs, ⟨rest, tol⟩) := by
  simp only [nominal, Bool.and_eq_true, Bool.not_eq_true'] at h
  obtain ⟨⟨⟨⟨⟨_, _⟩, hm⟩, h1⟩, h0⟩, h10⟩ := h
  induction bs generalizing bit byte with
  | nil => simp [receive_bits, assemble]
  | cons b bs ih =>
    cases b <;>
      simp [receive_bits, assemble, bit_pair, RemoteReceiveData.expect_item, hm, h1, h0, h10, ih]

set_option maxRecDepth 100000 in
theorem assemble_byte_bits : ∀ b < 256, assemble 0 0 (byte_bits b) = b := by
  decide

theorem receive_bits_byte (tol : Nat → Nat → Bool) (h : nominal tol = true)
    (v : Nat) (rest : List Pulse) :
    receive_bits 8 0 0 ⟨byte_pulses (u8 v) ++ rest, tol⟩ = some (u8 v, ⟨rest, tol⟩) := by
  have hl : (byte_bits (u8 v)).length = 8 := by simp [byte_bits]
  have := receive_bits_pulses tol h (byte_bits (u8 v)) 0 0 rest
  have hv : u8 v < 256 := Nat.mod_lt _ (by norm_num)
  rw [hl, assemble_byte_bits (u8 v) hv] at this
  exact this

theorem receive_bytes_pulses (tol : Nat → Nat → Bool) (h : nominal tol = true)
    (bs : List Nat) (pos : Nat) (pre post : List Nat) (rest : List Pulse)
    (hpre : pre.length = pos) (hpost : post.length = bs.length)
    (hok : markers_ok pos (bs.map u8) = true) :
    receive_bytes bs.length pos (pre ++ post) ⟨frame_pulses bs ++ rest, tol⟩ =
      some (pre ++ bs.map u8) := by
  induction bs generalizing pos pre post with
  | nil =>
    cases post with
    | nil => simp [receive_bytes]
    | cons p post => simp at hpost
  | cons b bs ih =>
    cases post with
    | nil => simp at hpost
    | cons p post =>
      simp only [List.map_cons, markers_ok, Bool.and_eq_true, Bool.not_eq_true'] at hok
      have hfp : frame_pulses (b :: bs) ++ rest = byte_pulses (u8 b) ++ (frame_pulses bs ++ rest) := by
        simp [frame_pulses]
      have hset : (pre ++ p :: post).set pos (u8 b) = (pre ++ [u8 b]) ++ post := by
        subst hpre
        simp
      simp only [List.length_cons, receive_bytes, hfp, receive_bits_byte tol h, hok.1, hset]
      have := ih (pos + 1) (pre ++ [u8 b]) post (by simp [hpre]) (by simpa using hpost) hok.2
      simpa using this

/-! ## Claims on the frame and the pulse train -/

/-- C1: for every mode, target temperature, fan speed, swing mode and
configuration, `transmit_state` sends eighteen bytes, and the eighteenth equals
the sum of the seventeen sent before it, modulo 256. -/
theorem checksum_byte_is_sum_of_preceding (c : Config) (s : Climate) :
    (frame_bytes c s).length = 18 ∧
      (frame_bytes c s).getD 17 0 = ((frame_bytes c s).take 17).sum % 256 := by
  rw [frame_bytes_eq]
  refine ⟨rfl, ?_⟩
  simp only [List.getD_cons_succ, List.getD_cons_zero, List.take_succ_cons, List.take_zero,
    List.sum_cons, List.sum_nil, entry17, u8, u32]
  omega

theorem bit_pair_eq (b j : Nat) : bit_pair ((b &&& (1 <<< j)) != 0) = spec_bit_pair b j := by
  rw [mask_test_eq_bit_set]
  unfold spec_bit_pair bit_pair
  cases bit_set b j <;> rfl

theorem byte_pulses_eq (b : Nat) : byte_pulses b = (List.range 8).flatMap (spec_bit_pair b) := by
  simp only [byte_pulses, byte_bits, range_eight, List.map_cons, List.map_nil,
    List.flatMap_cons, List.flatMap_nil, bit_pair_eq]

/-- The data part of the pulse train is the part `B` of the spec. -/
theorem frame_pulses_eq_spec_data (rs : List Nat) :
    frame_pulses rs = spec_data (rs.map u8) := by
  induction rs with
  | nil => rfl
  | cons v rs ih =>
    simp only [frame_pulses, spec_data, List.flatMap_cons, List.map_cons, byte_pulses_eq] at ih ⊢
    rw [ih]

theorem frame_pulses_length (rs : List Nat) : (frame_pulses rs).length = 16 * rs.length := by
  induction rs with
  | nil => rfl
  | cons v rs ih =>
    simp only [frame_pulses, List.flatMap_cons, List.length_append, List.length_cons] at ih ⊢
    rw [ih]
    simp [byte_pulses, byte_bits, bit_pair, range_eight]
    omega

/-- C10: for every state and configuration, `transmit_state` sets the carrier
frequency to 38000 once and emits exactly `H ++ B ++ [430, 17500] ++ H ++ B ++
[430]`, with `H = [3500, 1700]` and `B` the pairs of the eighteen frame bytes,
least significant bit first, (430, 1250) for a set bit and (430, 390)
otherwise; both repetitions carry the same data, and the sequence has 583
durations, the last one a mark. -/
theorem transmit_state_pulse_train (c : Config) (s : Climate) :
    (transmit_state c s).carrier_frequency = [38000] ∧
      (transmit_state c s).data = spec_pulse_train (frame_bytes c s) ∧
      ((transmit_state c s).data.map Pulse.duration).length = 583 ∧
      (transmit_state c s).data.getLast? = some (Pulse.mark 430) := by
  have hd : (transmit_state c s).data = spec_pulse_train (frame_bytes c s) := by
    simp only [transmit_state, send_remote_state_data, frame_pulses_eq_spec_data, frame_bytes,
      spec_pulse_train, spec_header, MITSUBISHI_HEADER_MARK, MITSUBISHI_HEADER_SPACE,
      MITSUBISHI_BIT_MARK, MITSUBISHI_MIN_GAP, List.append_assoc, List.cons_append,
      List.nil_append]
  refine ⟨send_remote_state_carrier _, hd, ?_, ?_⟩
  · have hl : (remote_state c s).length = 18 := by rw [remote_state_eq]; rfl
    simp only [transmit_state, send_remote_state_data, List.length_map, List.length_cons,
      List.length_append, frame_pulses_length, hl, List.length_nil]
  · have hsplit : (transmit_state c s).data =
        (Pulse.mark MITSUBISHI_HEADER_MARK :: Pulse.space MITSUBISHI_HEADER_SPACE ::
          (frame_pulses (remote_state c s) ++
            Pulse.mark MITSUBISHI_BIT_MARK :: Pulse.space MITSUBISHI_MIN_GAP ::
            Pulse.mark MITSUBISHI_HEADER_MARK :: Pulse.space MITSUBISHI_HEADER_SPACE ::
              frame_pulses (remote_state c s))) ++ [Pulse.mark 430] := by
      simp [transmit_state, send_remote_state_data, MITSUBISHI_BIT_MARK]
    rw [hsplit, List.getLast?_concat]

/-! ## Round trip -/

/-- On the pulse train of `transmit_state`, the demodulation of `on_receive`
assembles the bytes that were sent. -/
theorem receive_frame_transmit_state (c : Config) (s : Climate) (tol : Nat → Nat → Bool)
    (h : nominal tol = true) :
    receive_frame ⟨(transmit_state c s).data, tol⟩ = some (frame_bytes c s) := by
  have hh : tol MITSUBISHI_HEADER_MARK MITSUBISHI_HEADER_MARK = true ∧
      tol MITSUBISHI_HEADER_SPACE MITSUBISHI_HEADER_SPACE = true := by
    simp only [nominal, Bool.and_eq_true, Bool.not_eq_true'] at h
    exact ⟨h.1.1.1.1.1, h.1.1.1.1.2⟩
  have hl : (remote_state c s).length = 18 := by rw [remote_state_eq]; rfl
  have hok : markers_ok 0 ((remote_state c s).map u8) = true := by
    rw [remote_state_eq]
    simp [markers_ok, marker_mismatch, u8, MITSUBISHI_BYTE00, MITSUBISHI_BYTE01,
      MITSUBISHI_BYTE02, MITSUBISHI_BYTE03, MITSUBISHI_BYTE04, MITSUBISHI_BYTE13,
      MITSUBISHI_BYTE16]
  have hb := receive_bytes_pulses tol h (remote_state c s) 0 [] (List.replicate 18 0)
    (Pulse.mark MITSUBISHI_BIT_MARK :: Pulse.space MITSUBISHI_MIN_GAP ::
      Pulse.mark MITSUBISHI_HEADER_MARK :: Pulse.space MITSUBISHI_HEADER_SPACE ::
        (frame_pulses (remote_state c s) ++ [Pulse.mark MITSUBISHI_BIT_MARK]))
    rfl (by simp [hl]) hok
  rw [hl] at hb
  simp only [List.nil_append] at hb
  simp only [receive_frame, transmit_state, send_remote_state_data,
    RemoteReceiveData.expect_item, hh.1, hh.2, Bool.and_self, if_true, hb, frame_bytes]


/-- On the pulse train of `transmit_state`, `on_receive` returns `true` and
extracts the fields from the bytes that were sent. -/
theorem on_receive_transmit_state (c : Config) (s rx : Climate) (tol : Nat → Nat → Bool)
    (h : nominal tol = true) :
    on_receive c rx ⟨(transmit_state c s).data, tol⟩ =
      (true, decode_state c (frame_bytes c s) rx) := by
  simp only [on_receive, receive_frame_transmit_state c s tol h]

/-! ## Field extraction -/

theorem decode_mode_fields (f : List Nat) (s : Climate) :
    (decode_mode f s).target_temperature = s.target_temperature ∧
      (decode_mode f s).fan_mode = s.fan_mode ∧ (decode_mode f s).swing_mode = s.swing_mode ∧
      (decode_mode f s).published = s.published := by
  unfold decode_mode
  split_ifs <;> exact ⟨rfl, rfl, rfl, rfl⟩

theorem decode_temperature_fields (f : List Nat) (s : Climate) :
    (decode_temperature f s).mode = s.mode ∧
      (decode_temperature f s).target_temperature = ((f.getD 7 0 + 16 : Nat) : ℚ) ∧
      (decode_temperature f s).fan_mode = s.fan_mode ∧
      (decode_temperature f s).swing_mode = s.swing_mode ∧
      (decode_temperature f s).published = s.published :=
  ⟨rfl, rfl, rfl, rfl, rfl⟩

theorem decode_fan_fields (c : Config) (f : List Nat) (s : Climate) :
    (decode_fan c f s).mode = s.mode ∧
      (decode_fan c f s).target_temperature = s.target_temperature ∧
      (decode_fan c f s).swing_mode = s.swing_mode ∧
      (decode_fan c f s).published = s.published := by
  unfold decode_fan
  simp only
  split_ifs <;> exact ⟨rfl, rfl, rfl, rfl⟩

/-- The fan speed stored by the fan block does not depend on the other fields. -/
theorem decode_fan_congr (c : Config) (f : List Nat) (s t : Climate)
    (h : s.fan_mode = t.fan_mode) : (decode_fan c f s).fan_mode = (decode_fan c f t).fan_mode := by
  unfold decode_fan
  simp only
  split_ifs <;> first | rfl | exact h

theorem decode_wide_vane_fields (f : List Nat) (s : Climate) :
    (decode_wide_vane f s).mode = s.mode ∧
      (decode_wide_vane f s).target_temperature = s.target_temperature ∧
      (decode_wide_vane f s).fan_mode = s.fan_mode ∧
      (decode_wide_vane f s).published = s.published := by
  unfold decode_wide_vane
  simp only
  split_ifs <;> exact ⟨rfl, rfl, rfl, rfl⟩

/-- The swing mode stored by the wide-vane block does not depend on the state before. -/
theorem decode_wide_vane_swing (f : List Nat) (s : Climate) :
    (decode_wide_vane f s).swing_mode =
      if f.getD 8 0 &&& 0xF0 = MITSUBISHI_WIDE_VANE_SWING then CLIMATE_SWING_HORIZONTAL
      else CLIMATE_SWING_OFF := by
  unfold decode_wide_vane
  simp only
  split_ifs <;> rfl

theorem decode_vertical_vane_fields (f : List Nat) (s : Climate) :
    (decode_vertical_vane f s).mode = s.mode ∧
      (decode_vertical_vane f s).target_temperature = s.target_temperature ∧
      (decode_vertical_vane f s).fan_mode = s.fan_mode ∧
      (decode_vertical_vane f s).published = s.published := by
  unfold decode_vertical_vane
  simp only
  split_ifs <;> exact ⟨rfl, rfl, rfl, rfl⟩

theorem decode_vertical_vane_swing (f : List Nat) (s : Climate) :
    (decode_vertical_vane f s).swing_mode =
      if f.getD 9 0 &&& 0x38 = MITSUBISHI_VERTICAL_VANE_SWING then
        (if s.swing_mode = CLIMATE_SWING_HORIZONTAL then CLIMATE_SWING_BOTH
         else CLIMATE_SWING_VERTICAL)
      else s.swing_mode := by
  unfold decode_vertical_vane
  simp only
  split_ifs <;> rfl

theorem decode_state_mode (c : Config) (f : List Nat) (s : Climate) :
    (decode_state c f s).mode = (decode_mode f s).mode := by
  unfold decode_state Climate.publish_state
  simp only [(decode_vertical_vane_fields _ _).1, (decode_wide_vane_fields _ _).1,
    (decode_fan_fields _ _ _).1, (decode_temperature_fields _ _).1]

theorem decode_state_target_temperature (c : Config) (f : List Nat) (s : Climate) :
    (decode_state c f s).target_temperature = ((f.getD 7 0 + 16 : Nat) : ℚ) := by
  unfold decode_state Climate.publish_state
  simp only [(decode_vertical_vane_fields _ _).2.1, (decode_wide_vane_fields _ _).2.1,
    (decode_fan_fields _ _ _).2.1, (decode_temperature_fields _ _).2.1]

theorem decode_state_fan_mode (c : Config) (f : List Nat) (s : Climate) :
    (decode_state c f s).fan_mode = (decode_fan c f s).fan_mode := by
  unfold decode_state Climate.publish_state
  simp only [(decode_vertical_vane_fields _ _).2.2.1, (decode_wide_vane_fields _ _).2.2.1]
  exact decode_fan_congr c f _ _
    (((decode_temperature_fields _ _).2.2.1).trans (decode_mode_fields _ _).2.1)

theorem decode_state_swing_mode (c : Config) (f : List Nat) (s : Climate) :
    (decode_state c f s).swing_mode =
      if f.getD 9 0 &&& 0x38 = MITSUBISHI_VERTICAL_VANE_SWING then
        (if f.getD 8 0 &&& 0xF0 = MITSUBISHI_WIDE_VANE_SWING then CLIMATE_SWING_BOTH
         else CLIMATE_SWING_VERTICAL)
      else if f.getD 8 0 &&& 0xF0 = MITSUBISHI_WIDE_VANE_SWING then CLIMATE_SWING_HORIZONTAL
      else CLIMATE_SWING_OFF := by
  unfold decode_state Climate.publish_state
  simp only [decode_vertical_vane_swing, decode_wide_vane_swing]
  split_ifs <;> first | rfl | contradiction

theorem decode_state_published (c : Config) (f : List Nat) (s : Climate) :
    (decode_state c f s).published = s.published + 1 := by
  unfold decode_state Climate.publish_state
  simp only [(decode_vertical_vane_fields _ _).2.2.2, (decode_wide_vane_fields _ _).2.2.2,
    (decode_fan_fields _ _ _).2.2.2, (decode_temperature_fields _ _).2.2.2.2,
    (decode_mode_fields _ _).2.2.2]

/-! ## Claims on the round trip of mode, temperature and swing -/

theorem entry7_lt (mode : ClimateMode) (T : ℚ) : entry7 mode T < 16 := by
  unfold entry7
  split_ifs
  · norm_num
  · have h := to_uint8_roundf_clamp T
    have hb := round_clamp_bounds T
    omega

theorem nominal_within_percent : nominal (within_percent 25) = true := by decide

/-- C2: for every mode other than Dry, every target temperature, every fan
speed, swing mode and configuration, and every prior receiver state,
`on_receive` on the pulse train of `transmit_state` (read with a tolerance test
that accepts the nominal durations and tells a zero space from a one space)
returns `true`, and leaves the transmitted mode and the target temperature
`round (clamp T 16 31)`. -/
theorem roundtrip_mode_and_temperature (c : Config) (s rx : Climate) (tol : Nat → Nat → Bool)
    (htol : nominal tol = true) (hmode : s.mode ≠ CLIMATE_MODE_DRY)
    (hlo : 16 ≤ s.target_temperature) (hhi : s.target_temperature ≤ 31) :
    (on_receive c rx ⟨(transmit_state c s).data, tol⟩).1 = true ∧
      (on_receive c rx ⟨(transmit_state c s).data, tol⟩).2.mode = s.mode ∧
      (on_receive c rx ⟨(transmit_state c s).data, tol⟩).2.target_temperature =
        ((round (clamp s.target_temperature 16 31) : ℤ) : ℚ) ∧
      (on_receive c rx ⟨(transmit_state c s).data, tol⟩).2.target_temperature =
        ((round s.target_temperature : ℤ) : ℚ) := by
  rw [on_receive_transmit_state c s rx tol htol]
  have htemp : (decode_state c (frame_bytes c s) rx).target_temperature =
      ((round (clamp s.target_temperature 16 31) : ℤ) : ℚ) := by
    rw [decode_state_target_temperature, frame_bytes_eq]
    simp only [List.getD_cons_succ, List.getD_cons_zero]
    have h7 := entry7_lt s.mode s.target_temperature
    have hu : u8 (entry7 s.mode s.target_temperature) = entry7 s.mode s.target_temperature := by
      unfold u8; omega
    rw [hu]
    have hz := to_uint8_roundf_clamp s.target_temperature
    have he : ((entry7 s.mode s.target_temperature : Nat) : ℤ) =
        round (clamp s.target_temperature 16 31) - 16 := by
      simp only [entry7, if_neg hmode]
      exact hz
    have : (((entry7 s.mode s.target_temperature + 16 : Nat) : ℤ) : ℚ) =
        ((round (clamp s.target_temperature 16 31) : ℤ) : ℚ) := by
      congr 1
      push_cast
      omega
    exact_mod_cast this
  refine ⟨rfl, ?_, htemp, ?_⟩
  · rw [decode_state_mode, frame_bytes_eq]
    cases hm : s.mode <;> first | exact absurd hm hmode | rfl
  · rw [htemp, clamp_of_mem _ hlo hhi]

/-- Witness of `roundtrip_mode_and_temperature`: Heat at 23 degrees, read with a
tolerance of 25 per cent over a receiver that was in Cool at 20 degrees. -/
theorem roundtrip_mode_and_temperature_witness :
    (nominal (within_percent 25) = true ∧ sample_heat.mode ≠ CLIMATE_MODE_DRY ∧
      (16 : ℚ) ≤ sample_heat.target_temperature ∧ sample_heat.target_temperature ≤ 31) ∧
    (on_receive sample_config sample_prior
        ⟨(transmit_state sample_config sample_heat).data, within_percent 25⟩).1 = true ∧
    (on_receive sample_config sample_prior
        ⟨(transmit_state sample_config sample_heat).data, within_percent 25⟩).2.mode =
      CLIMATE_MODE_HEAT ∧
    (on_receive sample_config sample_prior
        ⟨(transmit_state sample_config sample_heat).data, within_percent 25⟩).2.target_temperature =
      23 := by
  have h := roundtrip_mode_and_temperature sample_config sample_heat sample_prior
    (within_percent 25) (by decide) (by decide) (by norm_num [sample_heat])
    (by norm_num [sample_heat])
  refine ⟨⟨by decide, by decide, by norm_num [sample_heat], by norm_num [sample_heat]⟩,
    h.1, h.2.1, ?_⟩
  rw [h.2.2.2]
  simp [sample_heat]

/-- C3: for mode Dry and every requested target temperature, fan speed, swing
mode and configuration, `transmit_state` sends byte 7 = 8, and `on_receive` on
that pulse train returns `true` and sets mode Dry and target temperature 24. -/
theorem dry_sends_eight_and_decodes_24 (c : Config) (s rx : Climate) (tol : Nat → Nat → Bool)
    (htol : nominal tol = true) (hmode : s.mode = CLIMATE_MODE_DRY) :
    (frame_bytes c s).getD 7 0 = 8 ∧
      (on_receive c rx ⟨(transmit_state c s).data, tol⟩).1 = true ∧
      (on_receive c rx ⟨(transmit_state c s).data, tol⟩).2.mode = CLIMATE_MODE_DRY ∧
      (on_receive c rx ⟨(transmit_state c s).data, tol⟩).2.target_temperature = 24 := by
  rw [on_receive_transmit_state c s rx tol htol]
  have h7 : (frame_bytes c s).getD 7 0 = 8 := by
    rw [frame_bytes_eq]
    simp only [List.getD_cons_succ, List.getD_cons_zero, entry7, hmode, if_true]
    rfl
  refine ⟨h7, rfl, ?_, ?_⟩
  · rw [decode_state_mode, frame_bytes_eq, hmode]
    rfl
  · rw [decode_state_target_temperature, h7]
    norm_num

/-- Witness of `dry_sends_eight_and_decodes_24`: Dry with a requested 30
degrees, read with a tolerance of 25 per cent. -/
theorem dry_sends_eight_and_decodes_24_witness :
    (nominal (within_percent 25) = true ∧
      ({ sample_heat with mode := CLIMATE_MODE_DRY, target_temperature := 30 } : Climate).mode =
        CLIMATE_MODE_DRY) ∧
    (frame_bytes sample_config
        { sample_heat with mode := CLIMATE_MODE_DRY, target_temperature := 30 }).getD 7 0 = 8 ∧
    (on_receive sample_config sample_prior
        ⟨(transmit_state sample_config
            { sample_heat with mode := CLIMATE_MODE_DRY, target_temperature := 30 }).data,
          within_percent 25⟩).2.target_temperature = 24 :=
  ⟨⟨by decide, rfl⟩,
    (dry_sends_eight_and_decodes_24 sample_config
      { sample_heat with mode := CLIMATE_MODE_DRY, target_temperature := 30 } sample_prior
      (within_percent 25) (by decide) rfl).1,
    (dry_sends_eight_and_decodes_24 sample_config
      { sample_heat with mode := CLIMATE_MODE_DRY, target_temperature := 30 } sample_prior
      (within_percent 25) (by decide) rfl).2.2.2⟩

set_option maxRecDepth 100000 in
theorem or_swing_bits_low : ∀ y < 256, (y ||| 0x38 ||| 0x40) &&& 0x38 = 0x38 := by decide

/-- Conversion to a byte distributes over a bitwise or. -/
theorem or_mod_256 (a b : Nat) : (a ||| b) % 256 = a % 256 ||| b % 256 := by
  show (a ||| b) % 2 ^ 8 = a % 2 ^ 8 ||| b % 2 ^ 8
  apply Nat.eq_of_testBit_eq
  intro i
  simp only [Nat.testBit_mod_two_pow, Nat.testBit_or, Bool.and_or_distrib_left]

theorem u8_u32 (n : Nat) : u8 (u32 n) = n % 256 := by
  unfold u8 u32
  omega

/-- Bits 3 to 5 of a byte into which the vertical swing code was merged. -/
theorem vertical_swing_bits (x : Nat) : u8 (u32 (x ||| 0x38 ||| 0x40)) &&& 0x38 = 0x38 := by
  rw [u8_u32]
  have h : (x ||| 0x38 ||| 0x40) % 256 = (x % 256 ||| 0x38 ||| 0x40) := by
    rw [or_mod_256, or_mod_256]
  rw [h]
  exact or_swing_bits_low _ (Nat.mod_lt _ (by norm_num))

/-- C6: for swing mode Both and every mode, temperature, fan speed and
configuration, the frame of `transmit_state` has `byte 8 AND 0xF0 = 0xC0` and
`byte 9 AND 0x38 = 0x38`, and `on_receive` on that pulse train returns `true`
and sets swing mode Both. -/
theorem swing_both_roundtrip (c : Config) (s rx : Climate) (tol : Nat → Nat → Bool)
    (htol : nominal tol = true) (hswing : s.swing_mode = CLIMATE_SWING_BOTH) :
    (frame_bytes c s).getD 8 0 &&& 0xF0 = 0xC0 ∧
      (frame_bytes c s).getD 9 0 &&& 0x38 = 0x38 ∧
      (on_receive c rx ⟨(transmit_state c s).data, tol⟩).1 = true ∧
      (on_receive c rx ⟨(transmit_state c s).data, tol⟩).2.swing_mode = CLIMATE_SWING_BOTH := by
  rw [on_receive_transmit_state c s rx tol htol]
  have h8 : (frame_bytes c s).getD 8 0 &&& 0xF0 = 0xC0 := by
    rw [frame_bytes_eq]
    simp only [List.getD_cons_succ, List.getD_cons_zero, entry8, wide_vane_code, hswing]
    cases s.mode <;> decide
  have h9 : (frame_bytes c s).getD 9 0 &&& 0x38 = 0x38 := by
    rw [frame_bytes_eq]
    simp only [List.getD_cons_succ, List.getD_cons_zero, entry9, vertical_vane_code, hswing]
    exact vertical_swing_bits _
  refine ⟨h8, h9, rfl, ?_⟩
  rw [decode_state_swing_mode, h8, h9]
  rfl

/-- Witness of `swing_both_roundtrip`: swing Both, read with a tolerance of 25
per cent over a receiver that was in vertical swing. -/
theorem swing_both_roundtrip_witness :
    (nominal (within_percent 25) = true ∧
      ({ sample_heat with swing_mode := CLIMATE_SWING_BOTH } : Climate).swing_mode =
        CLIMATE_SWING_BOTH) ∧
    (on_receive sample_config sample_prior
        ⟨(transmit_state sample_config { sample_heat with swing_mode := CLIMATE_SWING_BOTH }).data,
          within_percent 25⟩).2.swing_mode = CLIMATE_SWING_BOTH :=
  ⟨⟨by decide, rfl⟩,
    (swing_both_roundtrip sample_config { sample_heat with swing_mode := CLIMATE_SWING_BOTH }
      sample_prior (within_percent 25) (by decide) rfl).2.2.2⟩

/-! ## Claims on rejection and acceptance -/

/-- C4: for every capture and every prior climate state, if `on_receive`
returns `false` then mode, target temperature, fan speed and swing mode are
what they were before the call, and `publish_state` was not invoked. -/
theorem rejected_capture_leaves_state (c : Config) (s : Climate) (d : RemoteReceiveData)
    (h : (on_receive c s d).1 = false) : (on_receive c s d).2 = s := by
  unfold on_receive at h ⊢
  cases hf : receive_frame d with
  | none => rfl
  | some f => simp [hf] at h

/-- Witness of `rejected_capture_leaves_state`: a capture whose first byte
demodulates to `0x22` where the marker `0x23` is expected. -/
theorem rejected_capture_leaves_state_witness :
    (on_receive sample_config sample_prior
        ⟨Pulse.mark 3500 :: Pulse.space 1700 :: byte_pulses 0x22, within_percent 25⟩).1 = false ∧
    (on_receive sample_config sample_prior
        ⟨Pulse.mark 3500 :: Pulse.space 1700 :: byte_pulses 0x22, within_percent 25⟩).2 =
      sample_prior :=
  ⟨by decide,
    rejected_capture_leaves_state sample_config sample_prior
      ⟨Pulse.mark 3500 :: Pulse.space 1700 :: byte_pulses 0x22, within_percent 25⟩ (by decide)⟩

/-- C5: `on_receive` returns `true` exactly on the captures that start with a
pair matching the header (3500, 1700) followed by 144 pairs each matching
(430, 1250) or (430, 390) whose bytes, assembled least significant bit first,
are 0x23, 0xCB, 0x26, 0x01, 0x00, 0x00, 0x00 at positions 0, 1, 2, 3, 4, 13, 16
(no other byte is looked at); and `publish_state` is invoked once when it
returns `true` and not at all otherwise. -/
theorem accepts_iff_well_formed (c : Config) (s : Climate) (tol : Nat → Nat → Bool)
    (data : List Pulse) :
    ((on_receive c s ⟨data, tol⟩).1 = true ↔ spec_accepts tol data = true) ∧
      (on_receive c s ⟨data, tol⟩).2.published =
        s.published + (if (on_receive c s ⟨data, tol⟩).1 then 1 else 0) := by
  unfold on_receive spec_accepts
  rw [receive_frame_eq]
  cases spec_frame tol data with
  | none => simp
  | some f => simp [decode_state_published]

/-! ## Claims on the fan speed -/

theorem on_receive_of_frame (c : Config) (s : Climate) (d : RemoteReceiveData) (f : List Nat)
    (h : receive_frame d = some f) : on_receive c s d = (true, decode_state c f s) := by
  simp only [on_receive, h]

/-- The fan speed `on_receive` stores, by the value of the three fan bits. -/
theorem on_receive_fan_mode (c : Config) (s : Climate) (d : RemoteReceiveData) (f : List Nat)
    (h : receive_frame d = some f) :
    (on_receive c s d).2.fan_mode =
      if f.getD 9 0 &&& 0x07 = 0 then CLIMATE_FAN_AUTO
      else if f.getD 9 0 &&& 0x07 ≤ c.fan_low_ then CLIMATE_FAN_LOW
      else if f.getD 9 0 &&& 0x07 < c.fan_hi_ then CLIMATE_FAN_MEDIUM
      else CLIMATE_FAN_HIGH := by
  rw [on_receive_of_frame c s d f h, decode_state_fan_mode]
  unfold decode_fan
  simp only [MITSUBISHI_FAN_AUTO]
  split_ifs <;> first | rfl | omega

/-- C7: fan classification in `on_receive`, with `r = byte 9 AND 0x07` and
thresholds `fan_low < fan_hi`: Auto if `r = 0`, Low if `1 ≤ r ≤ fan_low`,
Medium if `fan_low < r < fan_hi`, High if `r ≥ fan_hi`; the bucket is monotone
non-decreasing in `r`; and with `fan_low = 2`, `fan_hi = 5` the values
0, 1, 2, 3, 4, 5, 6, 7 of `r` give Auto, Low, Low, Medium, Medium, High, High,
High. -/
theorem fan_classification (c : Config) (s : Climate) (d : RemoteReceiveData) (f : List Nat)
    (hf : receive_frame d = some f) (hlt : c.fan_low_ < c.fan_hi_) :
    (f.getD 9 0 &&& 0x07 = 0 → (on_receive c s d).2.fan_mode = CLIMATE_FAN_AUTO) ∧
    (1 ≤ f.getD 9 0 &&& 0x07 ∧ f.getD 9 0 &&& 0x07 ≤ c.fan_low_ →
      (on_receive c s d).2.fan_mode = CLIMATE_FAN_LOW) ∧
    (c.fan_low_ < f.getD 9 0 &&& 0x07 ∧ f.getD 9 0 &&& 0x07 < c.fan_hi_ →
      (on_receive c s d).2.fan_mode = CLIMATE_FAN_MEDIUM) ∧
    (c.fan_hi_ ≤ f.getD 9 0 &&& 0x07 → (on_receive c s d).2.fan_mode = CLIMATE_FAN_HIGH) ∧
    (∀ (s' : Climate) (d' : RemoteReceiveData) (f' : List Nat), receive_frame d' = some f' →
      f.getD 9 0 &&& 0x07 ≤ f'.getD 9 0 &&& 0x07 →
      fan_rank (on_receive c s d).2.fan_mode ≤ fan_rank (on_receive c s' d').2.fan_mode) ∧
    (c.fan_low_ = 2 ∧ c.fan_hi_ = 5 →
      (on_receive c s d).2.fan_mode =
        [CLIMATE_FAN_AUTO, CLIMATE_FAN_LOW, CLIMATE_FAN_LOW, CLIMATE_FAN_MEDIUM,
          CLIMATE_FAN_MEDIUM, CLIMATE_FAN_HIGH, CLIMATE_FAN_HIGH, CLIMATE_FAN_HIGH].getD
          (f.getD 9 0 &&& 0x07) CLIMATE_FAN_HIGH) := by
  have hr : f.getD 9 0 &&& 0x07 < 8 := by
    have := Nat.and_le_right (n := f.getD 9 0) (m := 0x07)
    omega
  rw [on_receive_fan_mode c s d f hf]
  refine ⟨?_, ?_, ?_, ?_, ?_, ?_⟩
  · intro h; rw [if_pos h]
  · intro h; split_ifs <;> first | rfl | omega
  · intro h; split_ifs <;> first | rfl | omega
  · intro h; split_ifs <;> first | rfl | omega
  · intro s' d' f' hf' hle
    rw [on_receive_fan_mode c s' d' f' hf']
    split_ifs <;> simp only [fan_rank] <;> omega
  · rintro ⟨h2, h5⟩
    rw [h2, h5]
    generalize f.getD 9 0 &&& 0x07 = r at hr
    interval_cases r <;> rfl

/-- Witness of `fan_classification`: the frame of Heat, 23 degrees, fan Low with
thresholds 2 and 5 carries `r = 2` and is classified Low. -/
theorem fan_classification_witness :
    (receive_frame ⟨(transmit_state sample_config sample_heat).data, within_percent 25⟩ =
        some (frame_bytes sample_config sample_heat) ∧
      sample_config.fan_low_ < sample_config.fan_hi_) ∧
    (on_receive sample_config sample_prior
        ⟨(transmit_state sample_config sample_heat).data, within_percent 25⟩).2.fan_mode =
      CLIMATE_FAN_LOW := by
  have hf := receive_frame_transmit_state sample_config sample_heat (within_percent 25)
    (by decide)
  have h9 : (frame_bytes sample_config sample_heat).getD 9 0 &&& 0x07 = 2 := by
    rw [frame_bytes_eq]
    decide
  refine ⟨⟨hf, by decide⟩, ?_⟩
  exact (fan_classification sample_config sample_prior _ _ hf (by decide)).2.1
    (by rw [h9]; decide)

/-- The three fan bits of a byte built from a fan code below 8, a vane code in
bits 3 to 5 and the flag `0x40`. -/
theorem fan_bits_of_entry : ∀ x < 8, ∀ v < 64, v &&& 0x07 = 0 →
    u8 (u32 (x ||| v ||| 0x40)) &&& 0x07 = x := by
  decide

theorem isSetFanSpeed_iff (v : Nat) : isSetFanSpeed v = true ↔ 1 ≤ v ∧ v ≤ 5 := by
  simp only [isSetFanSpeed, Bool.or_eq_true, beq_iff_eq]
  omega

theorem isVerticalDirection_bits (v : Nat) (h : isVerticalDirection v = true) :
    v < 64 ∧ v &&& 0x07 = 0 := by
  simp only [isVerticalDirection, Bool.or_eq_true, beq_iff_eq] at h
  rcases h with ((((h | h) | h) | h) | h) | h <;> subst h <;> decide

/-- The three fan bits of the byte sent, for enumerator-valued thresholds and
vertical default. -/
theorem frame_fan_bits (c : Config) (s : Climate) (hlow : isSetFanSpeed c.fan_low_ = true)
    (hmed : isSetFanSpeed c.fan_medium_ = true) (hhi : isSetFanSpeed c.fan_hi_ = true)
    (hv : isVerticalDirection c.default_vertical_direction_ = true) :
    (frame_bytes c s).getD 9 0 &&& 0x07 =
      match s.fan_mode with
      | CLIMATE_FAN_AUTO => 0
      | CLIMATE_FAN_LOW => c.fan_low_
      | CLIMATE_FAN_MEDIUM => c.fan_medium_
      | CLIMATE_FAN_HIGH => c.fan_hi_ := by
  rw [isSetFanSpeed_iff] at hlow hmed hhi
  have hvb := isVerticalDirection_bits _ hv
  have hvc : vertical_vane_code c s.swing_mode < 64 ∧
      vertical_vane_code c s.swing_mode &&& 0x07 = 0 := by
    unfold vertical_vane_code
    cases s.swing_mode <;> dsimp only <;> first | exact hvb | exact ⟨by decide, by decide⟩
  rw [frame_bytes_eq]
  simp only [List.getD_cons_succ, List.getD_cons_zero, entry9]
  cases s.fan_mode <;> simp only [fan_code]
  · exact fan_bits_of_entry 0 (by norm_num) _ hvc.1 hvc.2
  · have : u32 c.fan_low_ = c.fan_low_ := by unfold u32; omega
    rw [this]
    exact fan_bits_of_entry _ (by omega) _ hvc.1 hvc.2
  · have : u32 c.fan_medium_ = c.fan_medium_ := by unfold u32; omega
    rw [this]
    exact fan_bits_of_entry _ (by omega) _ hvc.1 hvc.2
  · have : u32 c.fan_hi_ = c.fan_hi_ := by unfold u32; omega
    rw [this]
    exact fan_bits_of_entry _ (by omega) _ hvc.1 hvc.2

/-- C8, as amended: for every fan speed and every configuration of
enumerator values whose thresholds are ordered `fan_low < fan_medium < fan_hi`,
`on_receive` applied to the pulse train of `transmit_state` returns `true` and
recovers the fan speed that was transmitted. -/
theorem fan_roundtrip_of_ordered_thresholds (c : Config) (s rx : Climate)
    (tol : Nat → Nat → Bool) (htol : nominal tol = true) (henum : c.enumValued = true)
    (hord : c.fan_low_ < c.fan_medium_ ∧ c.fan_medium_ < c.fan_hi_) :
    (on_receive c rx ⟨(transmit_state c s).data, tol⟩).1 = true ∧
      (on_receive c rx ⟨(transmit_state c s).data, tol⟩).2.fan_mode = s.fan_mode := by
  simp only [Config.enumValued, Bool.and_eq_true] at henum
  obtain ⟨⟨⟨⟨hlow, hmed⟩, hhi⟩, _⟩, hv⟩ := henum
  have hbits := frame_fan_bits c s hlow hmed hhi hv
  have hf := receive_frame_transmit_state c s tol htol
  rw [isSetFanSpeed_iff] at hlow hmed hhi
  refine ⟨by rw [on_receive_transmit_state c s rx tol htol], ?_⟩
  rw [on_receive_fan_mode c rx _ _ hf, hbits]
  cases s.fan_mode <;> simp only <;> split_ifs <;> first | rfl | omega

/-- Witness of `fan_roundtrip_of_ordered_thresholds`: thresholds 2, 3, 5 and
fan Low. -/
theorem fan_roundtrip_of_ordered_thresholds_witness :
    (nominal (within_percent 25) = true ∧ sample_config.enumValued = true ∧
      sample_config.fan_low_ < sample_config.fan_medium_ ∧
      sample_config.fan_medium_ < sample_config.fan_hi_) ∧
    (on_receive sample_config sample_prior
        ⟨(transmit_state sample_config sample_heat).data, within_percent 25⟩).2.fan_mode =
      sample_heat.fan_mode :=
  ⟨⟨by decide, by decide, by decide, by decide⟩,
    (fan_roundtrip_of_ordered_thresholds sample_config sample_heat sample_prior
      (within_percent 25) (by decide) (by decide) ⟨by decide, by decide⟩).2⟩

/-- C8 as stated fails: with the enumerator thresholds `fan_low = 3`,
`fan_medium = 2`, `fan_hi = 5`, a transmitted fan speed Medium is received as
Low. -/
theorem fan_roundtrip_fails_for_unordered_thresholds :
    Config.enumValued ⟨3, 2, 5, 0x30, 0x18⟩ = true ∧
    nominal (within_percent 25) = true ∧
    (on_receive ⟨3, 2, 5, 0x30, 0x18⟩ sample_prior
        ⟨(transmit_state ⟨3, 2, 5, 0x30, 0x18⟩
            { sample_heat with fan_mode := CLIMATE_FAN_MEDIUM }).data,
          within_percent 25⟩).1 = true ∧
    (on_receive ⟨3, 2, 5, 0x30, 0x18⟩ sample_prior
        ⟨(transmit_state ⟨3, 2, 5, 0x30, 0x18⟩
            { sample_heat with fan_mode := CLIMATE_FAN_MEDIUM }).data,
          within_percent 25⟩).2.fan_mode = CLIMATE_FAN_LOW ∧
    ({ sample_heat with fan_mode := CLIMATE_FAN_MEDIUM } : Climate).fan_mode =
      CLIMATE_FAN_MEDIUM := by
  have hf := receive_frame_transmit_state ⟨3, 2, 5, 0x30, 0x18⟩
    { sample_heat with fan_mode := CLIMATE_FAN_MEDIUM } (within_percent 25) (by decide)
  refine ⟨by decide, by decide, ?_, ?_, rfl⟩
  · rw [on_receive_of_frame _ _ _ _ hf]
  · rw [on_receive_fan_mode _ _ _ _ hf, frame_bytes_eq]
    decide

/-! ## The end-to-end example -/

/-- The temperature entry for a request of 23 degrees in a mode other than Dry. -/
theorem entry7_heat_23 : entry7 CLIMATE_MODE_HEAT 23 = 7 := by
  have h := to_uint8_roundf_clamp 23
  have hc : clamp 23 16 31 = 23 := clamp_of_mem 23 (by norm_num) (by norm_num)
  have hr : round (23 : ℚ) = 23 := by
    have := round_natCast (α := ℚ) 23
    simp
  rw [hc, hr] at h
  simp only [entry7, reduceCtorEq, if_false, hc]
  omega

/-- C9, as amended: for mode Heat, target temperature 23, fan Low with
`fan_low = 2`, swing Off, default horizontal direction `0x30` and default
vertical direction `0x18`, the frame of `transmit_state` is
`23 CB 26 01 00 20 08 07 30 5A 00 00 00 00 00 00 00` followed by the checksum
`CE`: byte 9 is `0x02 | 0x18 | 0x40 = 0x5A`. -/
theorem end_to_end_heat_frame (fan_medium fan_hi published : Nat) :
    frame_bytes ⟨2, fan_medium, fan_hi, 0x30, 0x18⟩
        ⟨CLIMATE_MODE_HEAT, 23, CLIMATE_FAN_LOW, CLIMATE_SWING_OFF, published⟩ =
      [0x23, 0xCB, 0x26, 0x01, 0x00, 0x20, 0x08, 0x07, 0x30, 0x5A,
        0x00, 0x00, 0x00, 0x00, 0x00, 0x00, 0x00, 0xCE] := by
  rw [frame_bytes_eq]
  simp only [entry5, entry6, entry8, entry9, entry17, entry7_heat_23, mode_a, wide_vane_code,
    fan_code, vertical_vane_code]
  decide

/-- C9 as stated fails: the first seventeen bytes of that frame are not
`23 CB 26 01 00 20 08 07 30 58 00 00 00 00 00 00 00`. -/
theorem heat_example_byte9_is_not_58 :
    (frame_bytes sample_config sample_heat).take 17 ≠
      [0x23, 0xCB, 0x26, 0x01, 0x00, 0x20, 0x08, 0x07, 0x30, 0x58,
        0x00, 0x00, 0x00, 0x00, 0x00, 0x00, 0x00] := by
  intro h
  have h9 := congrArg (fun l => l.getD 9 0) h
  rw [frame_bytes_eq] at h9
  revert h9
  decide

/-! ## Claims on the mode, temperature and fan bytes -/

set_option maxRecDepth 100000 in
/-- The two nibbles of a byte built from a code below 16 and a code in the high
nibble. -/
theorem nibbles_of_entry : ∀ a < 16, ∀ w < 256, w &&& 0x0F = 0 →
    u8 (u32 (a ||| w)) &&& 0x0F = a ∧ u8 (u32 (a ||| w)) &&& 0xF0 = w := by
  decide

theorem isHorizontalDirection_bits (v : Nat) (h : isHorizontalDirection v = true) :
    v < 256 ∧ v &&& 0x0F = 0 ∧ v ≠ 0xC0 := by
  simp only [isHorizontalDirection, Bool.or_eq_true, beq_iff_eq] at h
  rcases h with ((((h | h) | h) | h) | h) | h <;> subst h <;> decide

theorem mode_a_lt (mode : ClimateMode) : mode_a mode < 16 := by
  cases mode <;> decide

theorem wide_vane_code_bits (c : Config) (swing_mode : ClimateSwingMode)
    (h : isHorizontalDirection c.default_horizontal_direction_ = true) :
    wide_vane_code c swing_mode < 256 ∧ wide_vane_code c swing_mode &&& 0x0F = 0 := by
  have hb := isHorizontalDirection_bits _ h
  unfold wide_vane_code
  cases swing_mode <;> dsimp only <;> first | exact ⟨hb.1, hb.2.1⟩ | exact ⟨by decide, by decide⟩

/-- The two nibbles of byte 8 for an enumerator-valued horizontal default. -/
theorem frame_byte8_nibbles (c : Config) (s : Climate)
    (h : isHorizontalDirection c.default_horizontal_direction_ = true) :
    (frame_bytes c s).getD 8 0 &&& 0x0F = mode_a s.mode ∧
      (frame_bytes c s).getD 8 0 &&& 0xF0 = wide_vane_code c s.swing_mode := by
  have hw := wide_vane_code_bits c s.swing_mode h
  rw [frame_bytes_eq]
  simp only [List.getD_cons_succ, List.getD_cons_zero, entry8]
  exact nibbles_of_entry _ (mode_a_lt _) _ hw.1 hw.2

/-- C11, as amended: for mode Off and every temperature, fan speed, swing mode
and enumerator-valued configuration, the frame of `transmit_state` has byte 5 =
`0x00`, byte 6 = `0x08` (the value of the initialiser, which the Off branch
leaves in place) and `byte 8 AND 0x0F = 0x00`. -/
theorem off_frame_mode_fields (c : Config) (s : Climate) (hmode : s.mode = CLIMATE_MODE_OFF)
    (henum : c.enumValued = true) :
    (frame_bytes c s).getD 5 0 = 0x00 ∧ (frame_bytes c s).getD 6 0 = 0x08 ∧
      (frame_bytes c s).getD 8 0 &&& 0x0F = 0x00 := by
  simp only [Config.enumValued, Bool.and_eq_true] at henum
  have h8 := (frame_byte8_nibbles c s henum.1.2).1
  rw [hmode] at h8
  refine ⟨?_, ?_, h8⟩
  · rw [frame_bytes_eq, hmode]; rfl
  · rw [frame_bytes_eq, hmode]; rfl

/-- Witness of `off_frame_mode_fields`: Off with the sample configuration. -/
theorem off_frame_mode_fields_witness :
    (sample_off.mode = CLIMATE_MODE_OFF ∧ sample_config.enumValued = true) ∧
    (frame_bytes sample_config sample_off).getD 5 0 = 0x00 ∧
    (frame_bytes sample_config sample_off).getD 6 0 = 0x08 ∧
    (frame_bytes sample_config sample_off).getD 8 0 &&& 0x0F = 0x00 :=
  ⟨⟨rfl, by decide⟩, off_frame_mode_fields sample_config sample_off rfl (by decide)⟩

/-- C11 as stated fails: in mode Off byte 6 of the frame is `0x08`, not `0x00`. -/
theorem off_frame_byte6_is_not_zero :
    sample_off.mode = CLIMATE_MODE_OFF ∧ sample_config.enumValued = true ∧
    (frame_bytes sample_config sample_off).getD 6 0 ≠ 0x00 := by
  refine ⟨rfl, by decide, ?_⟩
  rw [frame_bytes_eq]
  decide

/-- C12: for every mode other than Off and every enumerator-valued
configuration, the frame of `transmit_state` has byte 5 = `0x20` and
`(byte 6, byte 8 AND 0x0F)` equal to `(0x08, 0x00)` for Heat, `(0x10, 0x02)` for
Dry, `(0x18, 0x06)` for Cool and `(0x20, 0x06)` for HeatCool: HeatCool shares
the secondary code of Cool, and the wide-vane bits merged into byte 8 leave its
low nibble as the mode switch set it. -/
theorem on_frame_mode_fields (c : Config) (s : Climate) (hmode : s.mode ≠ CLIMATE_MODE_OFF)
    (henum : c.enumValued = true) :
    (frame_bytes c s).getD 5 0 = 0x20 ∧
      ((frame_bytes c s).getD 6 0, (frame_bytes c s).getD 8 0 &&& 0x0F) =
        spec_mode_codes s.mode ∧
      (spec_mode_codes CLIMATE_MODE_HEAT_COOL).2 = (spec_mode_codes CLIMATE_MODE_COOL).2 := by
  simp only [Config.enumValued, Bool.and_eq_true] at henum
  have h8 := (frame_byte8_nibbles c s henum.1.2).1
  rw [h8, frame_bytes_eq]
  cases hm : s.mode <;> first | exact absurd hm hmode | exact ⟨rfl, rfl, rfl⟩

/-- Witness of `on_frame_mode_fields`: Heat with the sample configuration. -/
theorem on_frame_mode_fields_witness :
    (sample_heat.mode ≠ CLIMATE_MODE_OFF ∧ sample_config.enumValued = true) ∧
    (frame_bytes sample_config sample_heat).getD 5 0 = 0x20 ∧
    ((frame_bytes sample_config sample_heat).getD 6 0,
      (frame_bytes sample_config sample_heat).getD 8 0 &&& 0x0F) = (0x08, 0x00) :=
  ⟨⟨by decide, by decide⟩,
    (on_frame_mode_fields sample_config sample_heat (by decide) (by decide)).1,
    (on_frame_mode_fields sample_config sample_heat (by decide) (by decide)).2.1⟩

theorem frame_byte7 (c : Config) (s : Climate) :
    (frame_bytes c s).getD 7 0 = entry7 s.mode s.target_temperature := by
  rw [frame_bytes_eq]
  simp only [List.getD_cons_succ, List.getD_cons_zero]
  have := entry7_lt s.mode s.target_temperature
  unfold u8
  omega

/-- C13: for every mode other than Dry and every requested target temperature
(any rational), byte 7 of the frame is `round (clamp T 16 31) - 16`, where a
half is rounded away from zero (`k + 1/2` gives `k + 1`); and for every input,
Dry included, byte 7 lies in 0..15. -/
theorem temperature_byte (c : Config) (s : Climate) :
    (s.mode ≠ CLIMATE_MODE_DRY →
      (((frame_bytes c s).getD 7 0 : Nat) : ℤ) = round (clamp s.target_temperature 16 31) - 16 ∧
      ∀ k : ℤ, clamp s.target_temperature 16 31 = (k : ℚ) + 1 / 2 →
        (((frame_bytes c s).getD 7 0 : Nat) : ℤ) = k + 1 - 16) ∧
    (s.mode = CLIMATE_MODE_DRY → (frame_bytes c s).getD 7 0 = 8) ∧
    (frame_bytes c s).getD 7 0 ≤ 15 := by
  rw [frame_byte7]
  refine ⟨?_, ?_, ?_⟩
  · intro hmode
    have h : ((entry7 s.mode s.target_temperature : Nat) : ℤ) =
        round (clamp s.target_temperature 16 31) - 16 := by
      simp only [entry7, if_neg hmode]
      exact to_uint8_roundf_clamp _
    refine ⟨h, ?_⟩
    intro k hk
    rw [h, hk, round_eq]
    have : ⌊(k : ℚ) + 1 / 2 + 1 / 2⌋ = k + 1 := by
      have e : (k : ℚ) + 1 / 2 + 1 / 2 = ((k + 1 : ℤ) : ℚ) := by push_cast; ring
      rw [e, Int.floor_intCast]
    rw [this]
  · intro hmode
    simp only [entry7, hmode, if_true]
  · have := entry7_lt s.mode s.target_temperature
    omega

/-- Witness of `temperature_byte`: a request of 22.5 degrees in Heat gives byte
7 = 7, and a request of 40 degrees gives 15. -/
theorem temperature_byte_witness :
    ({ sample_heat with target_temperature := 45 / 2 } : Climate).mode ≠ CLIMATE_MODE_DRY ∧
    (frame_bytes sample_config { sample_heat with target_temperature := 45 / 2 }).getD 7 0 = 7 ∧
    (frame_bytes sample_config { sample_heat with target_temperature := 40 }).getD 7 0 = 15 := by
  have h1 := (temperature_byte sample_config
    { sample_heat with target_temperature := 45 / 2 }).1 (by decide)
  have h2 := (temperature_byte sample_config
    { sample_heat with target_temperature := 40 }).1 (by decide)
  have c1 : clamp (45 / 2 : ℚ) 16 31 = (22 : ℤ) + 1 / 2 := by
    unfold clamp; norm_num
  have c2 : clamp (40 : ℚ) 16 31 = 31 := by
    unfold clamp; norm_num
  refine ⟨by decide, ?_, ?_⟩
  · have := h1.2 22 c1
    omega
  · have h := h2.1
    have hr : round (clamp (40 : ℚ) 16 31) = 31 := by
      rw [c2]
      have := round_natCast (α := ℚ) 31
      simp
    simp only [sample_heat] at h hr ⊢
    rw [hr] at h
    omega

/-- A byte built from a fan code below 8, a vane code in bits 3 to 5 and the
flag `0x40` is not changed by the conversions, and its fields are its parts. -/
theorem fields_of_entry9 : ∀ x < 8, ∀ v < 64, v &&& 0x07 = 0 →
    u8 (u32 (x ||| v ||| 0x40)) = x ||| v ||| 0x40 ∧
      (x ||| v ||| 0x40) &&& 0x07 = x ∧ (x ||| v ||| 0x40) &&& 0x38 = v ∧
      (x ||| v ||| 0x40) &&& 0x40 = 0x40 := by
  decide

theorem spec_V_eq (c : Config) (swing_mode : ClimateSwingMode) :
    spec_V c swing_mode = vertical_vane_code c swing_mode := by
  cases swing_mode <;> simp [spec_V, vertical_vane_code]

theorem spec_F_eq (c : Config) (fan_mode : ClimateFanMode)
    (hlow : isSetFanSpeed c.fan_low_ = true) (hmed : isSetFanSpeed c.fan_medium_ = true)
    (hhi : isSetFanSpeed c.fan_hi_ = true) :
    fan_code c fan_mode = spec_F c fan_mode ∧ spec_F c fan_mode < 8 := by
  rw [isSetFanSpeed_iff] at hlow hmed hhi
  cases fan_mode <;> simp only [fan_code, spec_F, u32] <;> constructor <;>
    first | trivial | omega

theorem vertical_vane_code_bits (c : Config) (swing_mode : ClimateSwingMode)
    (hv : isVerticalDirection c.default_vertical_direction_ = true) :
    vertical_vane_code c swing_mode < 64 ∧ vertical_vane_code c swing_mode &&& 0x07 = 0 := by
  have hvb := isVerticalDirection_bits _ hv
  unfold vertical_vane_code
  cases swing_mode <;> dsimp only <;> first | exact hvb | exact ⟨by decide, by decide⟩

/-- Byte 9 of the frame and its fields, for an enumerator-valued configuration. -/
theorem frame_byte9 (c : Config) (s : Climate) (henum : c.enumValued = true) :
    (frame_bytes c s).getD 9 0 = spec_F c s.fan_mode ||| spec_V c s.swing_mode ||| 0x40 ∧
      (frame_bytes c s).getD 9 0 &&& 0x07 = spec_F c s.fan_mode ∧
      (frame_bytes c s).getD 9 0 &&& 0x38 = spec_V c s.swing_mode ∧
      (frame_bytes c s).getD 9 0 &&& 0x40 = 0x40 := by
  simp only [Config.enumValued, Bool.and_eq_true] at henum
  obtain ⟨⟨⟨⟨hlow, hmed⟩, hhi⟩, _⟩, hv⟩ := henum
  have hF := spec_F_eq c s.fan_mode hlow hmed hhi
  have hV := vertical_vane_code_bits c s.swing_mode hv
  have h := fields_of_entry9 _ hF.2 _ hV.1 hV.2
  rw [frame_bytes_eq]
  simp only [List.getD_cons_succ, List.getD_cons_zero, entry9, hF.1, spec_V_eq]
  rw [h.1]
  exact ⟨rfl, h.2⟩

/-- C14: for every state and enumerator-valued configuration, byte 9 of the
frame is `F OR V OR 0x40`, with `F` 0 for fan Auto, `fan_low` for Low,
`fan_medium` for Medium, `fan_hi` for High, and `V` `0x38` when swing is
Vertical or Both and the default vertical direction otherwise; so
`byte 9 AND 0x07 = F` and bit `0x40` is set; for fan Low with `fan_low = 2`,
vertical default `0x18` and swing Off the byte is `0x5A`. -/
theorem fan_and_vane_byte (c : Config) (s : Climate) (henum : c.enumValued = true) :
    (frame_bytes c s).getD 9 0 = spec_F c s.fan_mode ||| spec_V c s.swing_mode ||| 0x40 ∧
      (frame_bytes c s).getD 9 0 &&& 0x07 = spec_F c s.fan_mode ∧
      (frame_bytes c s).getD 9 0 &&& 0x40 = 0x40 ∧
      (s.fan_mode = CLIMATE_FAN_LOW ∧ c.fan_low_ = 2 ∧ c.default_vertical_direction_ = 0x18 ∧
        s.swing_mode = CLIMATE_SWING_OFF → (frame_bytes c s).getD 9 0 = 0x5A) := by
  have h := frame_byte9 c s henum
  refine ⟨h.1, h.2.1, h.2.2.2, ?_⟩
  rintro ⟨hf, hl, hv, hs⟩
  rw [h.1, hf, hs]
  simp only [spec_F, spec_V, hl, hv]
  decide

/-- Witness of `fan_and_vane_byte`: Heat, fan Low, swing Off with thresholds
2, 3, 5 and vertical default `0x18`. -/
theorem fan_and_vane_byte_witness :
    sample_config.enumValued = true ∧
    (frame_bytes sample_config sample_heat).getD 9 0 = 0x5A :=
  ⟨by decide,
    (fan_and_vane_byte sample_config sample_heat (by decide)).2.2.2 ⟨rfl, rfl, rfl, rfl⟩⟩

/-! ## Claims on the swing mode -/

/-- C15: for each swing mode among Off, Horizontal and Vertical, every mode,
temperature and fan speed, and every enumerator-valued configuration,
`on_receive` applied to the pulse train of `transmit_state` returns `true` and
sets the swing mode that was transmitted. -/
theorem swing_roundtrip (c : Config) (s rx : Climate) (tol : Nat → Nat → Bool)
    (htol : nominal tol = true) (henum : c.enumValued = true)
    (hswing : s.swing_mode ≠ CLIMATE_SWING_BOTH) :
    (on_receive c rx ⟨(transmit_state c s).data, tol⟩).1 = true ∧
      (on_receive c rx ⟨(transmit_state c s).data, tol⟩).2.swing_mode = s.swing_mode := by
  have h9 := (frame_byte9 c s henum).2.2.1
  simp only [Config.enumValued, Bool.and_eq_true] at henum
  obtain ⟨⟨_, hh⟩, hv⟩ := henum
  have h8 := (frame_byte8_nibbles c s hh).2
  have hhb := isHorizontalDirection_bits _ hh
  have hvb : c.default_vertical_direction_ ≠ 0x38 := by
    simp only [isVerticalDirection, Bool.or_eq_true, beq_iff_eq] at hv
    omega
  rw [on_receive_transmit_state c s rx tol htol]
  refine ⟨rfl, ?_⟩
  rw [decode_state_swing_mode, h8, h9]
  cases hs : s.swing_mode
  · simp [spec_V, wide_vane_code, MITSUBISHI_VERTICAL_VANE_SWING, MITSUBISHI_WIDE_VANE_SWING,
      hvb, hhb.2.2]
  · simp [spec_V, wide_vane_code, MITSUBISHI_VERTICAL_VANE_SWING, MITSUBISHI_WIDE_VANE_SWING,
      hvb]
  · simp [spec_V, wide_vane_code, MITSUBISHI_VERTICAL_VANE_SWING, MITSUBISHI_WIDE_VANE_SWING,
      hhb.2.2]
  · exact absurd hs hswing

/-- Witness of `swing_roundtrip`: swing Off over a receiver that was in vertical
swing, and swing Horizontal. -/
theorem swing_roundtrip_witness :
    (nominal (within_percent 25) = true ∧ sample_config.enumValued = true ∧
      sample_heat.swing_mode ≠ CLIMATE_SWING_BOTH ∧
      sample_off.swing_mode ≠ CLIMATE_SWING_BOTH) ∧
    (on_receive sample_config sample_prior
        ⟨(transmit_state sample_config sample_heat).data, within_percent 25⟩).2.swing_mode =
      CLIMATE_SWING_OFF ∧
    (on_receive sample_config sample_prior
        ⟨(transmit_state sample_config sample_off).data, within_percent 25⟩).2.swing_mode =
      CLIMATE_SWING_HORIZONTAL :=
  ⟨⟨by decide, by decide, by decide, by decide⟩,
    (swing_roundtrip sample_config sample_heat sample_prior (within_percent 25) (by decide)
      (by decide) (by decide)).2,
    (swing_roundtrip sample_config sample_off sample_prior (within_percent 25) (by decide)
      (by decide) (by decide)).2⟩

/-! ## Claims on demodulation -/

theorem map_u8_of_bytes (b : List Nat) (h : ∀ v ∈ b, v < 256) : b.map u8 = b := by
  induction b with
  | nil => rfl
  | cons v b ih =>
    have hv : u8 v = v := Nat.mod_eq_of_lt (h v (by simp))
    rw [List.map_cons, hv, ih (fun w hw => h w (by simp [hw]))]

/-- The demodulation loop on a header followed by the bit pairs of eighteen
bytes with the marker values. -/
theorem receive_frame_spec_data (tol : Nat → Nat → Bool) (b : List Nat) (rest : List Pulse)
    (htol : nominal tol = true) (hlen : b.length = 18) (hbyte : ∀ v ∈ b, v < 256)
    (hmark : markers_match b = true) :
    receive_frame ⟨spec_header ++ spec_data b ++ rest, tol⟩ = some b := by
  have hh : tol MITSUBISHI_HEADER_MARK MITSUBISHI_HEADER_MARK = true ∧
      tol MITSUBISHI_HEADER_SPACE MITSUBISHI_HEADER_SPACE = true := by
    simp only [nominal, Bool.and_eq_true, Bool.not_eq_true'] at htol
    exact ⟨htol.1.1.1.1.1, htol.1.1.1.1.2⟩
  have hmap := map_u8_of_bytes b hbyte
  have hpul : spec_data b = frame_pulses b := by
    rw [frame_pulses_eq_spec_data, hmap]
  have hok : markers_ok 0 (b.map u8) = true := by
    rw [hmap, markers_ok_iff b hlen]
    exact hmark
  have hb := receive_bytes_pulses tol htol b 0 [] (List.replicate 18 0) rest rfl
    (by simp [hlen]) hok
  rw [hlen, hmap] at hb
  simp only [List.nil_append] at hb
  have hd : spec_header ++ spec_data b ++ rest =
      Pulse.mark MITSUBISHI_HEADER_MARK :: Pulse.space MITSUBISHI_HEADER_SPACE ::
        (frame_pulses b ++ rest) := by
    rw [hpul]
    rfl
  simp only [receive_frame, hd, RemoteReceiveData.expect_item, hh.1, hh.2, Bool.and_self,
    if_true, hb]

/-- C16: demodulation inverts modulation at the byte level: for every sequence
`b` of 18 bytes whose positions 0, 1, 2, 3, 4, 13, 16 hold 0x23, 0xCB, 0x26,
0x01, 0x00, 0x00, 0x00, a capture made of the header pair (3500, 1700) and the
144 bit pairs of `b`, least significant bit first, followed by any further
events, is accepted by `on_receive`, and the 18 bytes it assembles are `b`. -/
theorem demodulation_inverts_modulation (c : Config) (s : Climate) (tol : Nat → Nat → Bool)
    (b : List Nat) (rest : List Pulse) (htol : nominal tol = true) (hlen : b.length = 18)
    (hbyte : ∀ v ∈ b, v < 256) (hmark : markers_match b = true) :
    (on_receive c s ⟨spec_header ++ spec_data b ++ rest, tol⟩).1 = true ∧
      receive_frame ⟨spec_header ++ spec_data b ++ rest, tol⟩ = some b ∧
      spec_data b = frame_pulses b := by
  have hf := receive_frame_spec_data tol b rest htol hlen hbyte hmark
  refine ⟨?_, hf, ?_⟩
  · rw [on_receive_of_frame c s _ b hf]
  · rw [frame_pulses_eq_spec_data, map_u8_of_bytes b hbyte]

/-- Witness of `demodulation_inverts_modulation`: a frame with an unused mode
code, followed by the footer mark. -/
theorem demodulation_inverts_modulation_witness :
    (nominal (within_percent 25) = true ∧ sample_frame_unknown_mode.length = 18 ∧
      (∀ v ∈ sample_frame_unknown_mode, v < 256) ∧
      markers_match sample_frame_unknown_mode = true) ∧
    receive_frame
        ⟨spec_header ++ spec_data sample_frame_unknown_mode ++ [Pulse.mark 430],
          within_percent 25⟩ = some sample_frame_unknown_mode :=
  ⟨⟨by decide, by decide, by decide, by decide⟩,
    (demodulation_inverts_modulation sample_config sample_prior (within_percent 25)
      sample_frame_unknown_mode [Pulse.mark 430] (by decide) (by decide) (by decide)
      (by decide)).2.1⟩

/-- The field extraction reads bytes 5, 6, 7, 8 and 9 only. -/
theorem decode_state_congr (c : Config) (s : Climate) (f1 f2 : List Nat)
    (h5 : f1.getD 5 0 = f2.getD 5 0) (h6 : f1.getD 6 0 = f2.getD 6 0)
    (h7 : f1.getD 7 0 = f2.getD 7 0) (h8 : f1.getD 8 0 = f2.getD 8 0)
    (h9 : f1.getD 9 0 = f2.getD 9 0) : decode_state c f1 s = decode_state c f2 s := by
  unfold decode_state decode_mode decode_temperature decode_fan decode_wide_vane
    decode_vertical_vane
  rw [h5, h6, h7, h8, h9]

theorem set_checksum_byte_keeps (b : List Nat) (x : Nat) (hlen : b.length = 18) :
    (b.set 17 x).length = 18 ∧ (b.set 17 x).getD 5 0 = b.getD 5 0 ∧
      (b.set 17 x).getD 6 0 = b.getD 6 0 ∧ (b.set 17 x).getD 7 0 = b.getD 7 0 ∧
      (b.set 17 x).getD 8 0 = b.getD 8 0 ∧ (b.set 17 x).getD 9 0 = b.getD 9 0 ∧
      markers_match (b.set 17 x) = markers_match b ∧ (b.set 17 x).getD 17 0 = x := by
  match b, hlen with
  | [a0, a1, a2, a3, a4, a5, a6, a7, a8, a9, a10, a11, a12, a13, a14, a15, a16, a17], _ =>
    refine ⟨rfl, rfl, rfl, rfl, rfl, rfl, rfl, rfl⟩

/-- C17: the checksum and the unused bytes do not influence decoding: two
accepted captures whose frames agree on bytes 5, 6, 7, 8 and 9 leave, from the
same prior state and configuration, the same state (mode, target temperature,
fan speed, swing mode), whatever bytes 10, 11, 12, 14, 15 and 17 are; and a
frame whose byte 17 is replaced by any value is accepted and decoded like the
frame itself. -/
theorem unchecked_bytes_do_not_influence (c : Config) (s : Climate) :
    (∀ (d1 d2 : RemoteReceiveData) (f1 f2 : List Nat),
      receive_frame d1 = some f1 → receive_frame d2 = some f2 →
      f1.getD 5 0 = f2.getD 5 0 → f1.getD 6 0 = f2.getD 6 0 → f1.getD 7 0 = f2.getD 7 0 →
      f1.getD 8 0 = f2.getD 8 0 → f1.getD 9 0 = f2.getD 9 0 →
      on_receive c s d1 = on_receive c s d2) ∧
    (∀ (tol : Nat → Nat → Bool) (b : List Nat) (x : Nat) (rest rest' : List Pulse),
      nominal tol = true → b.length = 18 → (∀ v ∈ b, v < 256) → markers_match b = true →
      x < 256 →
      (on_receive c s ⟨spec_header ++ spec_data (b.set 17 x) ++ rest, tol⟩).1 = true ∧
      on_receive c s ⟨spec_header ++ spec_data (b.set 17 x) ++ rest, tol⟩ =
        on_receive c s ⟨spec_header ++ spec_data b ++ rest', tol⟩) := by
  constructor
  · intro d1 d2 f1 f2 hf1 hf2 h5 h6 h7 h8 h9
    rw [on_receive_of_frame c s d1 f1 hf1, on_receive_of_frame c s d2 f2 hf2,
      decode_state_congr c s f1 f2 h5 h6 h7 h8 h9]
  · intro tol b x rest rest' htol hlen hbyte hmark hx
    have hk := set_checksum_byte_keeps b x hlen
    have hbyte' : ∀ v ∈ b.set 17 x, v < 256 := by
      intro v hv
      rcases List.mem_or_eq_of_mem_set hv with h | h
      · exact hbyte v h
      · rw [h]; exact hx
    have hf1 := receive_frame_spec_data tol (b.set 17 x) rest htol hk.1 hbyte'
      (by rw [hk.2.2.2.2.2.2.1]; exact hmark)
    have hf2 := receive_frame_spec_data tol b rest' htol hlen hbyte hmark
    rw [on_receive_of_frame c s _ _ hf1, on_receive_of_frame c s _ _ hf2,
      decode_state_congr c s _ b hk.2.1 hk.2.2.1 hk.2.2.2.1 hk.2.2.2.2.1 hk.2.2.2.2.2.1]
    exact ⟨rfl, rfl⟩

/-- Witness of `unchecked_bytes_do_not_influence`: the Heat frame with its
checksum `0xCE` replaced by `0x00` is accepted and decoded like the frame with
the checksum. -/
theorem unchecked_bytes_do_not_influence_witness :
    (nominal (within_percent 25) = true ∧ sample_frame_heat.length = 18 ∧
      (∀ v ∈ sample_frame_heat, v < 256) ∧ markers_match sample_frame_heat = true ∧
      (sample_frame_heat.set 17 0).getD 17 0 ≠ (sample_frame_heat.take 17).sum % 256) ∧
    (on_receive sample_config sample_prior
        ⟨spec_header ++ spec_data (sample_frame_heat.set 17 0) ++ [], within_percent 25⟩).1 =
      true ∧
    on_receive sample_config sample_prior
        ⟨spec_header ++ spec_data (sample_frame_heat.set 17 0) ++ [], within_percent 25⟩ =
      on_receive sample_config sample_prior
        ⟨spec_header ++ spec_data sample_frame_heat ++ [], within_percent 25⟩ :=
  ⟨⟨by decide, by decide, by decide, by decide, by decide⟩,
    (unchecked_bytes_do_not_influence sample_config sample_prior).2 (within_percent 25)
      sample_frame_heat 0 [] [] (by decide) (by decide) (by decide) (by decide) (by decide)⟩

/-! ## Claims on the decoded mode and temperature -/

/-- C18: for every accepted frame with byte 5 different from `0x00` and byte 6
not in {0x08, 0x10, 0x18, 0x20}, `on_receive` returns `true`, takes target
temperature, fan speed and swing mode from the frame, and leaves the mode as it
was before the call; and for every accepted frame with byte 5 = `0x00` the mode
becomes Off whatever byte 6 is. -/
theorem unrecognised_mode_code_keeps_mode (c : Config) (s : Climate) (d : RemoteReceiveData)
    (f : List Nat) (hf : receive_frame d = some f) :
    (f.getD 5 0 ≠ 0x00 ∧ f.getD 6 0 ≠ 0x08 ∧ f.getD 6 0 ≠ 0x10 ∧ f.getD 6 0 ≠ 0x18 ∧
        f.getD 6 0 ≠ 0x20 →
      (on_receive c s d).1 = true ∧
      (on_receive c s d).2.mode = s.mode ∧
      (on_receive c s d).2.target_temperature = ((f.getD 7 0 + 16 : Nat) : ℚ) ∧
      (on_receive c s d).2.fan_mode =
        (if f.getD 9 0 &&& 0x07 = 0 then CLIMATE_FAN_AUTO
         else if f.getD 9 0 &&& 0x07 ≤ c.fan_low_ then CLIMATE_FAN_LOW
         else if f.getD 9 0 &&& 0x07 < c.fan_hi_ then CLIMATE_FAN_MEDIUM
         else CLIMATE_FAN_HIGH) ∧
      (on_receive c s d).2.swing_mode =
        (if f.getD 9 0 &&& 0x38 = 0x38 then
          (if f.getD 8 0 &&& 0xF0 = 0xC0 then CLIMATE_SWING_BOTH else CLIMATE_SWING_VERTICAL)
         else if f.getD 8 0 &&& 0xF0 = 0xC0 then CLIMATE_SWING_HORIZONTAL
         else CLIMATE_SWING_OFF) ∧
      (on_receive c s d).2.published = s.published + 1) ∧
    (f.getD 5 0 = 0x00 → (on_receive c s d).2.mode = CLIMATE_MODE_OFF) := by
  have hfan := on_receive_fan_mode c s d f hf
  rw [on_receive_of_frame c s d f hf] at hfan ⊢
  constructor
  · rintro ⟨h5, h08, h10, h18, h20⟩
    refine ⟨rfl, ?_, decode_state_target_temperature c f s, hfan, ?_,
      decode_state_published c f s⟩
    · rw [decode_state_mode]
      simp only [decode_mode, MITSUBISHI_OFF, MITSUBISHI_MODE_HEAT, MITSUBISHI_MODE_DRY,
        MITSUBISHI_MODE_COOL, MITSUBISHI_MODE_AUTO, if_neg h5, if_neg h08, if_neg h10,
        if_neg h18, if_neg h20]
    · rw [decode_state_swing_mode]
      rfl
  · intro h5
    rw [decode_state_mode]
    simp only [decode_mode, MITSUBISHI_OFF, if_pos h5]

/-- Witness of `unrecognised_mode_code_keeps_mode`: a frame with mode code
`0x28` over a receiver in Cool leaves Cool and stores 23 degrees. -/
theorem unrecognised_mode_code_keeps_mode_witness :
    (receive_frame
        ⟨spec_header ++ spec_data sample_frame_unknown_mode ++ [], within_percent 25⟩ =
        some sample_frame_unknown_mode ∧
      sample_frame_unknown_mode.getD 5 0 ≠ 0x00 ∧ sample_frame_unknown_mode.getD 6 0 ≠ 0x08 ∧
      sample_frame_unknown_mode.getD 6 0 ≠ 0x10 ∧ sample_frame_unknown_mode.getD 6 0 ≠ 0x18 ∧
      sample_frame_unknown_mode.getD 6 0 ≠ 0x20) ∧
    (on_receive sample_config sample_prior
        ⟨spec_header ++ spec_data sample_frame_unknown_mode ++ [], within_percent 25⟩).2.mode =
      CLIMATE_MODE_COOL ∧
    (on_receive sample_config sample_prior
        ⟨spec_header ++ spec_data sample_frame_unknown_mode ++ [],
          within_percent 25⟩).2.target_temperature = 23 := by
  have hf := receive_frame_spec_data (within_percent 25) sample_frame_unknown_mode []
    (by decide) (by decide) (by decide) (by decide)
  have h := (unrecognised_mode_code_keeps_mode sample_config sample_prior _ _ hf).1
    ⟨by decide, by decide, by decide, by decide, by decide⟩
  refine ⟨⟨hf, by decide, by decide, by decide, by decide, by decide⟩, h.2.1, ?_⟩
  rw [h.2.2.1]
  norm_num [sample_frame_unknown_mode]

/-- C19, the code at a failing input: a capture whose frame has the marker
bytes and temperature byte `0x10` is accepted, and the target temperature
stored is 32, above the maximum 31 of the climate range. -/
theorem accepted_temperature_above_range :
    (on_receive sample_config sample_prior
        ⟨spec_header ++ spec_data sample_frame_byte7_16 ++ [], within_percent 25⟩).1 = true ∧
    (on_receive sample_config sample_prior
        ⟨spec_header ++ spec_data sample_frame_byte7_16 ++ [],
          within_percent 25⟩).2.target_temperature = 32 ∧
    ¬ ((32 : ℚ) ≤ (MITSUBISHI_TEMP_MAX : ℚ)) := by
  have hf := receive_frame_spec_data (within_percent 25) sample_frame_byte7_16 []
    (by decide) (by decide) (by decide) (by decide)
  rw [on_receive_of_frame sample_config sample_prior _ _ hf]
  refine ⟨rfl, ?_, ?_⟩
  · rw [decode_state_target_temperature]
    norm_num [sample_frame_byte7_16]
  · norm_num [MITSUBISHI_TEMP_MAX]

/-! ## The fan round trip and the order of the thresholds -/

/-- C20: for enumerator-valued fan thresholds (each in 1..5), the round trip
from `transmit_state` to `on_receive` recovers the transmitted fan speed for
all four speeds if and only if `fan_low < fan_medium < fan_hi`; Auto and Low
are recovered under every such configuration; and the fan speed `on_receive`
stores for a capture does not depend on `fan_medium`. -/
theorem fan_roundtrip_iff_ordered (c : Config) (tol : Nat → Nat → Bool)
    (htol : nominal tol = true) (henum : c.enumValued = true) :
    ((∀ s rx : Climate,
        (on_receive c rx ⟨(transmit_state c s).data, tol⟩).2.fan_mode = s.fan_mode) ↔
      (c.fan_low_ < c.fan_medium_ ∧ c.fan_medium_ < c.fan_hi_)) ∧
    (∀ s rx : Climate, s.fan_mode = CLIMATE_FAN_AUTO ∨ s.fan_mode = CLIMATE_FAN_LOW →
      (on_receive c rx ⟨(transmit_state c s).data, tol⟩).2.fan_mode = s.fan_mode) ∧
    (∀ (m : Nat) (s : Climate) (d : RemoteReceiveData),
      on_receive { c with fan_medium_ := m } s d = on_receive c s d) := by
  have he := henum
  simp only [Config.enumValued, Bool.and_eq_true] at he
  obtain ⟨⟨⟨⟨hlow, hmed⟩, hhi⟩, _⟩, hv⟩ := he
  have hdec : ∀ s rx : Climate,
      (on_receive c rx ⟨(transmit_state c s).data, tol⟩).2.fan_mode =
        (if spec_F c s.fan_mode = 0 then CLIMATE_FAN_AUTO
         else if spec_F c s.fan_mode ≤ c.fan_low_ then CLIMATE_FAN_LOW
         else if spec_F c s.fan_mode < c.fan_hi_ then CLIMATE_FAN_MEDIUM
         else CLIMATE_FAN_HIGH) := by
    intro s rx
    rw [on_receive_fan_mode c rx _ _ (receive_frame_transmit_state c s tol htol),
      (frame_byte9 c s henum).2.1]
  rw [isSetFanSpeed_iff] at hlow hmed hhi
  refine ⟨⟨?_, ?_⟩, ?_, ?_⟩
  · intro h
    have hM := h { sample_heat with fan_mode := CLIMATE_FAN_MEDIUM } sample_heat
    rw [hdec] at hM
    simp only [spec_F] at hM
    split_ifs at hM
    omega
  · intro hord s rx
    rw [hdec]
    cases s.fan_mode <;> simp only [spec_F] <;> split_ifs <;> first | rfl | omega
  · intro s rx hs
    rw [hdec]
    rcases hs with hs | hs <;> rw [hs] <;> simp only [spec_F] <;> split_ifs <;>
      first | rfl | omega
  · intro m s d
    unfold on_receive
    cases receive_frame d with
    | none => rfl
    | some f => rfl

/-- Witness of `fan_roundtrip_iff_ordered`: with the ordered thresholds 2, 3, 5
the fan speed is recovered. -/
theorem fan_roundtrip_iff_ordered_witness :
    (nominal (within_percent 25) = true ∧ sample_config.enumValued = true) ∧
    (on_receive sample_config sample_prior
        ⟨(transmit_state sample_config
            { sample_heat with fan_mode := CLIMATE_FAN_HIGH }).data,
          within_percent 25⟩).2.fan_mode = CLIMATE_FAN_HIGH :=
  ⟨⟨by decide, by decide⟩,
    ((fan_roundtrip_iff_ordered sample_config (within_percent 25) (by decide)
      (by decide)).1.mpr ⟨by decide, by decide⟩)
      { sample_heat with fan_mode := CLIMATE_FAN_HIGH } sample_prior⟩

end Mitsubishi
